import Mathlib

/-!
Verification of the construction-contract advisory application's
text-extraction, template-generation and persistence layer.

The definitions below are a shallow embedding of the JavaScript source:

* the section/list extraction and multi-issue splitting utilities of the
  report-generation API endpoint (`parseGptReportResponse`,
  `splitResponseByIssues`, `extractSection`, `extractListItems`,
  `generateFallbackClauses`);
* the deterministic template renderer of the app context
  (`generateDetailedAnalysis`, `generateLegalContext`,
  `generateClauseExplanations`, `generatePotentialOutcomes`,
  `generateTimelineSuggestions`, `generateRiskAssessment`,
  `generateRelevantClauses`, `generateRecommendations`,
  `getDraftRecipient`, `generateReport`);
* the save/delete API handlers over a report table
  (`saveReportHandler`, `deleteReportHandler`).

Strings are modelled as `List Char` internally (JavaScript string indices
and `.length` agree with character counts on the ASCII/BMP texts the
application handles).  The regular expressions of the source are compiled
to explicit scanning functions; each compilation step is justified in the
comment of the corresponding definition.  Impure inputs of the source
(`Date.now`, `new Date`) are passed as explicit parameters.
-/

namespace CCA

/-- Whitespace test for the JavaScript regex class \s restricted to the
ASCII range (space, tab, newline, carriage return, vertical tab, form
feed).  The texts the application processes are ASCII, so the Unicode
members of \s never arise. -/
def charIsWs (c : Char) : Bool :=
  c == ' ' || c == '\t' || c == '\n' || c == '\r' || c == '\x0b' || c == '\x0c'

/-- Literal prefix test on character lists. -/
def startsWithChars : List Char → List Char → Bool
  | [], _ => true
  | _ :: _, [] => false
  | p :: ps, c :: cs => p == c && startsWithChars ps cs

/-- Leftmost index at which pat occurs in the list (the JavaScript
String.prototype.indexOf, and the leftmost-match rule of
String.prototype.match); none when pat does not occur. -/
def findSub (pat : List Char) : List Char → Option Nat
  | [] => if startsWithChars pat [] then some 0 else none
  | c :: cs =>
    if startsWithChars pat (c :: cs) then some 0
    else (findSub pat cs).map (fun n => n + 1)

/-- JavaScript String.prototype.includes. -/
def jsIncludes (s sub : String) : Bool := (findSub sub.data s.data).isSome

/-- JavaScript String.prototype.toLowerCase (ASCII range). -/
def jsToLowerCase (s : String) : String := String.mk (s.data.map Char.toLower)

/-- JavaScript String.prototype.trim on a character list. -/
def trimStr (l : List Char) : List Char :=
  ((l.dropWhile charIsWs).reverse.dropWhile charIsWs).reverse

/-- JavaScript String.prototype.substring(a, b) on a character list (the
source only calls it with a less than or equal to b and both clamped to the
length, so no swap is needed). -/
def jsSubstringList (l : List Char) (a b : Nat) : List Char := (l.take b).drop a

/-- Case-insensitive literal match at the head of a list, returning the
remainder after the literal. -/
def ciStarts : List Char → List Char → Option (List Char)
  | [], l => some l
  | _ :: _, [] => none
  | p :: ps, c :: cs => if p.toLower == c.toLower then ciStarts ps cs else none

/-- The suffix \s*\d+: of the issue-boundary regex alternatives, matched at
the head of l; returns the number of characters consumed.  The character
classes \s and \d are disjoint and the final colon belongs to neither, so
the greedy \s* and \d+ never backtrack and maximal-run scanning is exact. -/
def wsDigitsColon (l : List Char) : Option Nat :=
  let w := l.takeWhile charIsWs
  let r := l.drop w.length
  let d := r.takeWhile Char.isDigit
  if d.isEmpty then none
  else
    match r.drop d.length with
    | ':' :: _ => some (w.length + d.length + 1)
    | _ => none

/-- One match of the issue-boundary regex
ISSUE\s*\d+:|Issue\s*\d+:|Analysis for Issue\s*\d+:|Regarding Issue\s*\d+:
(flags gi) at the head of l, returning the match length.  With the i flag
the first two alternatives coincide; the alternatives start with distinct
letters, so ordered alternation is a simple first-match choice. -/
def issueMarkerAt (l : List Char) : Option Nat :=
  match ciStarts (String.data ("issue")) l with
  | some r => (wsDigitsColon r).map (fun n => n + 5)
  | none =>
    match ciStarts (String.data ("analysis for issue")) l with
    | some r => (wsDigitsColon r).map (fun n => n + 18)
    | none =>
      match ciStarts (String.data ("regarding issue")) l with
      | some r => (wsDigitsColon r).map (fun n => n + 15)
      | none => none

/-- All (position, length) matches of the issue-boundary regex, scanning
left to right and resuming after the end of each match, exactly as
String.prototype.matchAll does for a /g regex.  The position strictly
increases at every step, so text.length + 1 fuel steps always suffice. -/
def scanMarkersFrom (text : List Char) : Nat → Nat → List (Nat × Nat)
  | 0, _ => []
  | fuel + 1, pos =>
    if pos < text.length then
      match issueMarkerAt (text.drop pos) with
      | some len => (pos, len) :: scanMarkersFrom text fuel (pos + len)
      | none => scanMarkersFrom text fuel (pos + 1)
    else []

/-- Matches of the issue-boundary regex over the whole text. -/
def scanMarkers (text : List Char) : List (Nat × Nat) :=
  scanMarkersFrom text (text.length + 1) 0

/-- splitResponseByIssues of the report-generation endpoint: when the
boundary-marker matches are at least issueCount, the text is sliced from
each match start to the next match start (or the end of the text for the
last match) — one slice per match; otherwise the text is divided into
issueCount contiguous slices of floor(length/issueCount) characters (the
last slice absorbing the remainder).  Every slice is trimmed. -/
def splitResponseByIssues (text : String) (issueCount : Nat) : List String :=
  let l := text.data
  let ms := scanMarkers l
  if issueCount ≤ ms.length then
    let starts := ms.map (fun m => m.fst)
    (starts.zip (starts.drop 1 ++ [l.length])).map
      (fun p => String.mk (trimStr (jsSubstringList l p.fst p.snd)))
  else
    (List.range issueCount).map (fun i =>
      let approx := l.length / issueCount
      let a := i * approx
      let b := if i = issueCount - 1 then l.length else (i + 1) * approx
      String.mk (trimStr (jsSubstringList l a b)))

/-- Lookahead alternative \n\s*\d+\.\s*[A-Z] of the section regex (a
numbered heading).  The classes \s, \d, the literal dot and [A-Z] are
pairwise disjoint where adjacent, so greedy maximal-run scanning is
exact. -/
def headingOneAt : List Char → Bool
  | [] => false
  | c :: r =>
    c == '\n' &&
      (let r1 := r.dropWhile charIsWs
       let d := r1.takeWhile Char.isDigit
       !d.isEmpty &&
         (match r1.drop d.length with
          | '.' :: r2 =>
            (match r2.dropWhile charIsWs with
             | e :: _ => e.isUpper
             | [] => false)
          | _ => false))

/-- Lookahead alternative \n\s*[A-Z][a-z]+\s*[A-Z][a-z]+ of the section
regex (a capitalized two-word heading).  Adjacent classes are disjoint, so
maximal-run scanning is exact. -/
def headingTwoAt : List Char → Bool
  | [] => false
  | c :: r =>
    c == '\n' &&
      (match r.dropWhile charIsWs with
       | u :: r2 =>
         u.isUpper &&
           (let low := r2.takeWhile Char.isLower
            !low.isEmpty &&
              (match (r2.drop low.length).dropWhile charIsWs with
               | v :: r4 =>
                 v.isUpper &&
                   (match r4 with
                    | e :: _ => e.isLower
                    | [] => false)
               | [] => false))
       | [] => false)

/-- Lookahead alternative \n\s*$ of the section regex: a newline followed
only by whitespace up to the end of the string ($ is end-of-input, no m
flag). -/
def nlWsEndAt : List Char → Bool
  | [] => false
  | c :: r => c == '\n' && r.all charIsWs

/-- The full lookahead of the section regex,
(?=\n\s*\d+\.\s*[A-Z]|\n\s*[A-Z][a-z]+\s*[A-Z][a-z]+|\n\s*$|$), tested at
the position where the remaining text is l. -/
def lookaheadOk (l : List Char) : Bool :=
  l.isEmpty || headingOneAt l || headingTwoAt l || nlWsEndAt l

/-- Number of characters the lazy group (.*?) of the section regex
consumes: the least expansion at which the lookahead holds.  The $
alternative of the lookahead guarantees a stop at the end of the list. -/
def lazyStop : List Char → Nat
  | [] => 0
  | c :: r => if lookaheadOk (c :: r) then 0 else lazyStop r + 1

/-- The part :?[\s\n]* of the section-regex prefix: one optional colon and
the following whitespace run. -/
def afterOptColon (l : List Char) : List Char :=
  match l with
  | c :: t => if c == ':' then t.dropWhile charIsWs else c :: t
  | [] => []

/-- The text remaining after the prefix sectionName[\s\n]*:?[\s\n]* of the
section regex (with the :? omitted when withColon is false), at the
leftmost occurrence of the literal section name; none when the name does
not occur.  Since the lazy group plus lookahead always succeed (the
lookahead has the $ alternative and the group is dotAll), the whole regex
matches exactly at occurrences of the literal name, so the leftmost regex
match is the leftmost occurrence.  [\s\n] equals \s, the colon is not
whitespace, and the group's first character position follows a maximal
whitespace run, so the greedy prefix never backtracks. -/
def restAfterLabel (name text : List Char) (withColon : Bool) : Option (List Char) :=
  (findSub name text).map (fun p =>
    let r0 := (text.drop (p + name.length)).dropWhile charIsWs
    if withColon then afterOptColon r0 else r0)

/-- Capture group 1 of the section regex
sectionName[\s\n]*:?[\s\n]*(.*?)(?=…)  (flag s), at its leftmost match. -/
def sectionGroup (name text : List Char) (withColon : Bool) : Option (List Char) :=
  (restAfterLabel name text withColon).map (fun r => r.take (lazyStop r))

/-- One match of the paragraph separator regex \n\s*\n starting at the head
of l: a newline such that the following whitespace run contains another
newline (the greedy \s* backtracks inside the run until the closing \n). -/
def dblNlAt : List Char → Bool
  | [] => false
  | c :: r => c == '\n' && (r.takeWhile charIsWs).contains '\n'

/-- Length of the first fragment of content.split(/\n\s*\n/): characters up
to the first match of the separator regex (the whole list when there is no
match). -/
def firstFragEnd : List Char → Nat
  | [] => 0
  | c :: r => if dblNlAt (c :: r) then 0 else firstFragEnd r + 1

/-- The post-processing extractSection applies to a captured group: trim,
and for single-paragraph sections keep only the first fragment of the split
at blank lines, trimmed again. -/
def postProcessSection (g : List Char) (allowMultiParagraph : Bool) : List Char :=
  let content := trimStr g
  if allowMultiParagraph then content
  else trimStr (content.take (firstFragEnd content))

/-- The fallback branch of extractSection: the same regex without the
optional colon; returns the empty string when that regex fails or captures
an empty group. -/
def extractSectionAlt (text sectionName : String) (allowMultiParagraph : Bool) : String :=
  match sectionGroup sectionName.data text.data false with
  | some g =>
    if g.isEmpty then String.mk []
    else String.mk (postProcessSection g allowMultiParagraph)
  | none => String.mk []

/-- extractSection of the report-generation endpoint.  The source tests
`match && match[1]`, and an empty capture group is falsy in JavaScript, so
an empty group also falls through to the colon-free regex. -/
def extractSection (text sectionName : String) (allowMultiParagraph : Bool) : String :=
  match sectionGroup sectionName.data text.data true with
  | some g =>
    if g.isEmpty then extractSectionAlt text sectionName allowMultiParagraph
    else String.mk (postProcessSection g allowMultiParagraph)
  | none => extractSectionAlt text sectionName allowMultiParagraph

/-- The character class [\d•\-\*] of the list-item regex. -/
def isMarkerChar (c : Char) : Bool :=
  c.isDigit || c == '•' || c == '-' || c == '*'

/-- The marker part \s*(?:[\d•\-\*]+\.?\s*|\-\s+) of the list-item regex
matched at the head of l, returning the remainder (the start of the capture
group).  The first alternative subsumes the second (a dash belongs to the
class and the trailing \s* covers its \s+), adjacent classes are disjoint,
and the group-plus-lookahead suffix always succeeds, so maximal-run
scanning with the first alternative is exact. -/
def markerRest (l : List Char) : Option (List Char) :=
  let r := l.dropWhile charIsWs
  match r with
  | c :: _ =>
    if isMarkerChar c then
      let r2 := r.dropWhile isMarkerChar
      let r3 := match r2 with
        | '.' :: t => t
        | _ => r2
      some (r3.dropWhile charIsWs)
    else none
  | [] => none

/-- The item-start (?:^|\n) plus marker of the list-item regex at the head
of l.  ^ (no m flag) only matches at position 0; at position 0 the \n
alternative can never succeed where ^ followed by the same continuation
fails, so the zero-width ^ is taken there. -/
def itemHeadRest (atStart : Bool) (l : List Char) : Option (List Char) :=
  if atStart then markerRest l
  else
    match l with
    | c :: r => if c == '\n' then markerRest r else none
    | [] => none

/-- The lookahead (?=\n\s*(?:[\d•\-\*]+\.?\s*|\-\s+)|$) of the list-item
regex: end of input, or a newline whose following whitespace run is
followed by a marker character. -/
def itemLookahead : List Char → Bool
  | [] => true
  | c :: r =>
    c == '\n' &&
      (match r.dropWhile charIsWs with
       | d :: _ => isMarkerChar d
       | [] => false)

/-- The lazy capture group (.*?) of the list-item regex: characters up to
the first position where the item lookahead holds. -/
def itemGroup : List Char → (List Char × List Char)
  | [] => ([], [])
  | c :: r =>
    if itemLookahead (c :: r) then ([], c :: r)
    else
      let (g, rest) := itemGroup r
      (c :: g, rest)

/-- matchAll of the list-item regex: attempt a match at each position from
left to right, resuming at the end of a match (its lookahead is
zero-width).  Every match consumes at least its marker character, so
l.length + 1 fuel steps suffice. -/
def scanItemsFrom : Nat → Bool → List Char → List (List Char)
  | 0, _, _ => []
  | _ + 1, _, [] => []
  | fuel + 1, atStart, c :: rest =>
    match itemHeadRest atStart (c :: rest) with
    | some afterMarker =>
      let gr := itemGroup afterMarker
      gr.fst :: scanItemsFrom fuel false gr.snd
    | none => scanItemsFrom fuel false rest

/-- All capture groups of the list-item regex over content. -/
def scanItems (content : List Char) : List (List Char) :=
  scanItemsFrom (content.length + 1) true content

/-- The line filter regex ^[\d•\-\*]+\.?\s*$ of the fallback branch of
extractListItems: a maximal run of at least one marker character, an
optional dot, then only whitespace to the end. -/
def markerOnlyLine (l : List Char) : Bool :=
  let run := l.takeWhile isMarkerChar
  if run.isEmpty then false
  else
    let r2 := l.drop run.length
    let r3 := match r2 with
      | '.' :: t => t
      | _ => r2
    r3.all charIsWs

/-- JavaScript String.prototype.split('\n') on a character list. -/
def splitOnNl : List Char → List (List Char)
  | [] => [[]]
  | c :: r =>
    if c == '\n' then [] :: splitOnNl r
    else
      match splitOnNl r with
      | h :: t => (c :: h) :: t
      | [] => [[c]]

/-- extractListItems of the report-generation endpoint: isolate the section
body with the (colon) section regex, collect bulleted/numbered items, and
when the item regex finds no match fall back to the non-empty, non-marker
lines of the body. -/
def extractListItems (text sectionName : String) : List String :=
  match sectionGroup sectionName.data text.data true with
  | some g =>
    if g.isEmpty then []
    else
      let content := trimStr g
      let items := scanItems content
      if !items.isEmpty then
        ((items.map trimStr).filter (fun i => !i.isEmpty)).map String.mk
      else
        (((splitOnNl content).map trimStr).filter
          (fun line => !line.isEmpty && !markerOnlyLine line)).map String.mk
  | none => []

/-- generateFallbackClauses of the report-generation endpoint. -/
def generateFallbackClauses (contractType issueDescription : String) : List String :=
  let issueKeywords := jsToLowerCase issueDescription
  if jsIncludes contractType ("JCT") then
    if jsIncludes issueKeywords ("payment") then
      ["Clause 4.8", "Clause 4.9", "Clause 4.10", "Clause 4.11"]
    else if jsIncludes issueKeywords ("delay") then
      ["Clause 2.26", "Clause 2.27", "Clause 2.28", "Clause 2.29"]
    else if jsIncludes issueKeywords ("variation") then
      ["Clause 3.14", "Clause 3.15", "Clause 3.16", "Clause 5.6"]
    else if jsIncludes issueKeywords ("defect") then
      ["Clause 2.38", "Clause 2.39", "Clause 2.40", "Clause 3.18"]
    else ["Clause 1.7", "Clause 2.1", "Clause 8.4", "Clause 8.9"]
  else if jsIncludes contractType ("NEC") then
    if jsIncludes issueKeywords ("payment") then
      ["Clause 50.1", "Clause 51.1", "Clause 51.2", "Clause 51.3"]
    else if jsIncludes issueKeywords ("delay") then
      ["Clause 60.1", "Clause 61.3", "Clause 62.2", "Clause 63.3"]
    else if jsIncludes issueKeywords ("variation") then
      ["Clause 60.1(1)", "Clause 61.2", "Clause 63.1", "Clause 63.7"]
    else if jsIncludes issueKeywords ("defect") then
      ["Clause 40.1", "Clause 42.1", "Clause 43.1", "Clause 44.1"]
    else ["Clause 10.1", "Clause 15.1", "Clause 91.1", "Clause 93.1"]
  else
    ["General Contract Provisions", "Specific Terms of Agreement",
     "Implied Terms", "Payment Terms"]

/-- generateDetailedAnalysis of the app context's deterministic template
renderer: keyword classification of the lowercased issue description in
source order (payment, delay, variation/change/extra work,
design/specification/drawing, defect/quality/workmanship, generic), each
branch assembling prose by string concatenation conditioned on sub-keywords,
the contract-type family and the organization role. -/
def generateDetailedAnalysis (issueDescription contractType role : String) : String :=
  let issueKeywords := jsToLowerCase issueDescription
  if jsIncludes issueKeywords ("payment") then
    let a := ("Based on the specific payment issue you\x27ve described, this analysis focuses on the relevant payment mechanisms and your rights in this particular situation:")
    let a := a ++
      (if jsIncludes issueKeywords ("late") then
        ("\n\nYour issue concerns late payment contrary to the contractual payment terms. This specific situation triggers applicable provisions in your contract and statutory frameworks that provide a remedy for late payment.")
       else if jsIncludes issueKeywords ("certif") then
        ("\n\nYour issue involves challenges with the certification process for payment. This specific concern relates to the contractual certification procedure, including what constitutes a valid application, who should issue certificates, timeframes for certification, and the consequences of failure to certify correctly in your situation.")
       else if jsIncludes issueKeywords ("retention") then
        ("\n\nYour specific issue relates to retention monies. Based on your description, this concerns the contractual mechanism whereby a percentage of payment is withheld to protect against defects.")
       else if jsIncludes issueKeywords ("final account") then
        ("\n\nYour issue specifically concerns disputes over the final account settlement. This involves the consolidation of all financial adjustments made during your project including variations, extensions of time with associated costs, fluctuations, and other claims relevant to your situation.")
       else
        ("\n\nYour issue relates to a payment dispute under the contract. Based on your description, this involves disagreements over payment provisions that are specific to your situation."))
    let a := a ++ ("\n\n")
    let a := a ++
      (if jsIncludes role ("Contractor") || jsIncludes role ("Sub-contractor") then
        ("As a ") ++ role ++ (" in this specific situation, your payment rights are governed by the express terms of your contract and the implied terms from applicable legislation. For your particular issue, the Housing Grants, Construction and Regeneration Act 1996 (as amended) provides specific protection regarding payment terms, notice requirements, and the right to refer disputes to adjudication that applies directly to your circumstances.") ++
          (if jsIncludes contractType ("JCT") then
            (" In your JCT contract, the relevant payment provisions for your specific issue are typically found in clauses 4.8-4.13, which specify the application procedures, certification timeframes, and process for challenging valuations through appropriate notices that apply to your situation.")
           else if jsIncludes contractType ("NEC") then
            (" In your NEC contract, the payment provisions relevant to your specific issue are primarily addressed in clause 50 (assessment) and clause 51 (payment), with procedures for assessment and certification that apply directly to your situation.")
           else String.mk [])
       else if jsIncludes role ("Client") || jsIncludes role ("Employer") then
        ("As the ") ++ role ++ (" in this specific situation, your payment obligations are defined within your contract terms. For this particular issue, you have responsibility to make payment within the contractually or statutorily defined period following either certification or a valid application (depending on your contract provisions).") ++
          (if jsIncludes contractType ("JCT") then
            (" In your JCT contract, your payment responsibilities include issuing Payment Notices and Pay Less Notices within statutory timeframes if you intend to pay less than the notified sum, with specific requirements for the content of such notices to be valid in your situation.")
           else if jsIncludes contractType ("NEC") then
            (" Under your NEC contract, for this specific issue you must ensure proper certification procedures are followed, with the Project Manager\x27s assessments being made objectively and in accordance with the contract, as failure to do so in your situation could constitute a compensation event.")
           else String.mk [])
       else
        ("Your role as ") ++ role ++ (" in this specific situation requires understanding of the payment provisions within your contract. For this particular issue, you should ensure that proper procedures are followed for applications, certifications, and payments to address the specific concern raised."))
    a
  else if jsIncludes issueKeywords ("delay") then
    let a := ("Based on the specific delay issue you\x27ve described, this analysis focuses on the relevant time-related provisions in your contract:")
    let a := a ++
      (if jsIncludes issueKeywords ("extension") || jsIncludes issueKeywords ("eot") then
        ("\n\nYour specific issue concerns claims for extension of time under the contract. For this particular situation, the extension of time provisions allocate the risk of delay between the parties and provide a mechanism for adjusting the contractual completion date that applies to your circumstances.")
       else if jsIncludes issueKeywords ("liquidated") || jsIncludes issueKeywords ("lad") || jsIncludes issueKeywords ("damages") then
        ("\n\nYour specific issue concerns liquidated damages. In your situation, these are the pre-agreed sums that the employer can deduct for late completion, representing a genuine pre-estimate of the employer\x27s loss due to delayed completion.")
       else if jsIncludes issueKeywords ("concurrent") then
        ("\n\nYour specific issue involves concurrent delays, which in your situation occur when two or more delay events happen simultaneously, with at least one being the contractor\x27s risk and one being the employer\x27s risk. The treatment of these concurrent delays in your situation depends on the specific provisions in your contract.")
       else if jsIncludes issueKeywords ("acceleration") then
        ("\n\nYour specific issue relates to acceleration measures to mitigate delays. In your situation, this involves increasing resources or adjusting methods to complete works earlier than would otherwise be possible, which may be instructed formally or undertaken constructively in response to a failure to grant appropriate extensions of time.")
       else
        ("\n\nYour specific issue concerns delay-related matters affecting the project timeline. Based on your description, this involves questions about causes of delay, responsibility allocation, entitlement to additional time, and potential financial implications specific to your situation."))
    let a := a ++ ("\n\n")
    let a := a ++
      (if jsIncludes contractType ("JCT") then
        ("Under your JCT contract, the extension of time mechanism operates through \x27Relevant Events\x27 (typically found in clauses 2.26-2.29), which define the circumstances in which the contractor may be entitled to additional time in your specific situation. Meanwhile, \x27Relevant Matters\x27 (typically in clauses 4.21-4.22) define circumstances where the contractor may additionally be entitled to loss and expense in your case.") ++
          (if jsIncludes issueKeywords ("notice") then
            (" For your specific situation, the JCT requires the contractor to give notice \x27forthwith\x27 when it becomes reasonably apparent that progress is being or is likely to be delayed, providing details of the cause and expected effects. In your case, notice requirements are particularly relevant to preserving entitlement.")
           else String.mk [])
       else if jsIncludes contractType ("NEC") then
        ("In your NEC contract, delays are addressed through the Early Warning and Compensation Event mechanisms that apply to your specific situation. For your issue, Clause 61.3 requires the Contractor to notify a compensation event within 8 weeks of becoming aware of the event, with assessment principles in clause 63 requiring a prospective analysis using the Accepted Programme.") ++
          (if jsIncludes issueKeywords ("early warning") then
            (" For your specific issue, the Early Warning procedure (clause 15) is particularly important, as it encourages proactive identification and mitigation of potential issues. In your situation, while failure to give an Early Warning does not preclude entitlement to a Compensation Event, it may reduce the amount due if early notification would have reduced the impact.")
           else String.mk [])
       else
        ("For your specific delay issue, the relevant contract terms governing delay events, notification requirements, and extension of time entitlements should be carefully reviewed. Key considerations for your situation include: the contractual definition of the completion date; the specific events that entitle the contractor to extension of time; notification requirements and timeframes; and the method of delay analysis prescribed by your contract."))
    let a := a ++
      (if jsIncludes role ("Contractor") || jsIncludes role ("Sub-contractor") then
        ("\n\nAs a ") ++ role ++ (" in this specific situation, your primary responsibilities include proper programming, timely notification of delay events, maintenance of records to evidence both cause and effect of delays, and submission of substantiated extension of time claims in accordance with your contract procedures. For your particular issue, compliance with contractual notification procedures is especially important.")
       else if jsIncludes role ("Client") || jsIncludes role ("Employer") then
        ("\n\nAs the ") ++ role ++ (" in this specific situation, you must ensure that extension of time claims are assessed fairly and in accordance with your contract. For your particular issue, this includes reviewing submitted claims promptly, considering the evidence presented, and making determinations within the timeframes specified in your contract.")
       else if jsIncludes role ("Contract Administrator") || jsIncludes role ("Architect") || jsIncludes role ("Engineer") then
        ("\n\nIn your role as ") ++ role ++ (" for this specific situation, you have a duty to administer the contract impartially when assessing delay claims. For your particular issue, this involves objectively evaluating the evidence presented, considering the contractual entitlements, and making determinations in accordance with the contract within the specified timeframes.")
       else String.mk [])
    a
  else if jsIncludes issueKeywords ("variation") || jsIncludes issueKeywords ("change") || jsIncludes issueKeywords ("extra work") then
    let a := ("Based on the specific variation issue you\x27ve described, this analysis focuses on the relevant change provisions in your contract:")
    let a := a ++
      (if jsIncludes issueKeywords ("valuation") then
        ("\n\nYour specific issue concerns the valuation of variations. For your particular situation, your contract likely provides a hierarchy of methods for valuing variations that applies to your circumstances.")
       else if jsIncludes issueKeywords ("instruct") || jsIncludes issueKeywords ("authoriz") || jsIncludes issueKeywords ("authoris") then
        ("\n\nYour specific issue concerns the proper instruction or authorization of variations. For your particular situation, your contract specifies who has authority to instruct variations and the required format of such instructions that applies to your circumstances.")
       else if jsIncludes issueKeywords ("omission") then
        ("\n\nYour specific issue relates to omissions from the original scope of work. For your particular situation, there may be restrictions in your contract regarding omissions, particularly if the work is omitted to be given to another contractor or if the omission substantially changes the nature of the contract.")
       else if jsIncludes issueKeywords ("design") || jsIncludes issueKeywords ("specification") then
        ("\n\nYour specific issue involves design development or specification changes. For your particular situation, it\x27s important to distinguish between design development (which may fall within the contractor\x27s original obligations, particularly in design and build contracts) and genuine variations that change the employer\x27s requirements.")
       else
        ("\n\nYour specific issue relates to changes to the originally agreed scope of work. Based on your description, this involves variations resulting from specific factors in your project that necessitate deviation from the original contract documents."))
    let a := a ++ ("\n\n")
    let a := a ++
      (if jsIncludes contractType ("JCT") then
        ("Your JCT contract handles variations through the Architect\x27s/Contract Administrator\x27s Instructions mechanism. For your specific issue, the provisions in section 3.14-3.17 define what constitutes a valid variation instruction, the contractor\x27s right to reasonable objection, and the valuation rules applying to variations in your situation.") ++
          (if jsIncludes issueKeywords ("valuation") then
            (" For your specific valuation issue, the rules in your JCT contract (typically clause 5.6-5.9) provide a hierarchy of methods for valuing variations that applies to your situation.")
           else String.mk [])
       else if jsIncludes contractType ("NEC") then
        ("Your NEC contract manages variations through the Compensation Event mechanism. For your specific issue, this provides a structured process for instructing changes (clause 60.1(1)) and evaluating their impact on both time and cost that applies to your situation.") ++
          (if jsIncludes issueKeywords ("quotation") then
            (" For your specific issue, the quotation process for compensation events (clause 62) requires the Contractor to submit quotations showing the time and cost impact. In your situation, the assessment based on the effect on Defined Cost plus Fee is particularly relevant.")
           else String.mk [])
       else
        ("For your specific variation issue, the relevant provisions within your contract should be carefully reviewed. Key considerations for your situation include: who has authority to instruct variations; the required format of variation instructions; any limitations on the scope of permitted variations; notification and quotation requirements; and valuation methodologies."))
    let a := a ++
      (if jsIncludes role ("Contractor") || jsIncludes role ("Sub-contractor") then
        ("\n\nAs a ") ++ role ++ (" in this specific situation, you should ensure that you only proceed with varied work where there is proper instruction in accordance with your contract. For your particular issue, contemporaneous records of variations are essential, including details of additional resources, time impact, and costs specific to your situation.")
       else if jsIncludes role ("Client") || jsIncludes role ("Employer") then
        ("\n\nAs the ") ++ role ++ (" in this specific situation, you should ensure that variations are properly instructed through authorized representatives and in accordance with contractual procedures. For your particular issue, clear scope definition and agreement on cost and time implications before work proceeds can help minimize disputes.")
       else if jsIncludes role ("Contract Administrator") || jsIncludes role ("Architect") || jsIncludes role ("Engineer") then
        ("\n\nIn your role as ") ++ role ++ (" for this specific situation, you have specific powers and duties regarding variations. For your particular issue, these typically include the authority to issue variation instructions, obligation to value variations fairly in accordance with the contract, and responsibility to assess time implications.")
       else String.mk [])
    a
  else if jsIncludes issueKeywords ("design") || jsIncludes issueKeywords ("specification") || jsIncludes issueKeywords ("drawing") then
    let a := ("Based on the specific design issue you\x27ve described, this analysis focuses on the relevant design responsibilities and information provisions in your contract:")
    let a := a ++
      (if jsIncludes issueKeywords ("error") || jsIncludes issueKeywords ("mistake") || jsIncludes issueKeywords ("incorrect") then
        ("\n\nYour specific issue concerns errors or inadequacies in the design information. For your particular situation, the contractual and legal consequences depend on design responsibility allocation and the standard of care applicable to design obligations in your contract.")
       else if jsIncludes issueKeywords ("coordination") then
        ("\n\nYour specific issue relates to coordination between different design elements. For your particular situation, design coordination responsibilities should be defined in your contract, particularly if design responsibility is shared between multiple parties.")
       else if jsIncludes issueKeywords ("information") || jsIncludes issueKeywords ("drawing") || jsIncludes issueKeywords ("detail") then
        ("\n\nYour specific issue involves the provision or adequacy of design information. For your particular situation, your contract likely specifies timeframes for information release and procedures for requesting additional information that applies to your circumstances.")
       else
        ("\n\nYour specific issue relates to design matters affecting the project. Based on your description, the allocation of design responsibility is particularly relevant to your situation and has implications for risk allocation, standard of care, and liability."))
    let a := a ++ ("\n\n")
    let a := a ++
      (if jsIncludes contractType ("JCT") then
        (if jsIncludes contractType ("Design and Build") then
          ("Under your JCT Design and Build Contract, the Contractor assumes responsibility for completing the design (clause 2.1). For your specific issue, the standard of care applicable to this design obligation is particularly relevant, as is any design submission procedure and employer\x27s approval specified in your contract.")
         else
          ("In your traditional JCT contract, design responsibility typically remains with the Employer and the design team. For your specific issue, the Information Release Schedule (where included) establishes the timetable for provision of information relevant to your situation."))
       else if jsIncludes contractType ("NEC") then
        (if jsIncludes contractType ("Option X15") then
          ("In your NEC contract with Option X15 (Design Limitation), the Contractor\x27s liability for design is limited to reasonable skill and care rather than a stricter \x27fitness for purpose\x27 obligation. For your specific issue, the scope of the Contractor\x27s design responsibilities as defined in the Works Information/Scope is particularly relevant.")
         else
          ("In your NEC contract, the allocation of design responsibility should be defined in the Works Information/Scope. For your specific issue, if the Contractor has design responsibility, they typically warrant that the works will be fit for the purpose specified, unless limited by incorporation of Option X15."))
       else
        ("For your specific design issue, the relevant provisions governing design responsibility in your contract should be carefully reviewed. Key considerations for your situation include: the explicit allocation of design responsibility; the standard of care applicable to design obligations; any design submission and approval procedures; and the process for handling design changes."))
    let a := a ++
      (if jsIncludes role ("Contractor") && (jsIncludes contractType ("Design and Build") || jsIncludes issueKeywords ("contractor design")) then
        ("\n\nAs a Contractor with design responsibilities in this specific situation, you should ensure that your design complies with the contractual requirements and applicable standard of care. For your particular issue, professional indemnity insurance and careful review of employer\x27s requirements and site constraints are particularly relevant.")
       else if jsIncludes role ("Contractor") && !jsIncludes contractType ("Design and Build") then
        ("\n\nAs a Contractor in a traditional contract facing this specific situation, you should promptly notify any discrepancies or inadequacies in the design information provided. For your particular issue, requests for information should be made in accordance with contractual procedures and timeframes, and detailed records should be maintained.")
       else if jsIncludes role ("Client") || jsIncludes role ("Employer") then
        ("\n\nAs the ") ++ role ++ (" in this specific situation, your responsibilities regarding design information depend on the procurement route. For your particular issue, in a traditional contract you are responsible for providing adequate and timely design information, while in a design and build contract you must provide clear employer\x27s requirements.")
       else if jsIncludes role ("Architect") || jsIncludes role ("Engineer") then
        ("\n\nIn your role as ") ++ role ++ (" for this specific situation, you have professional obligations regarding design adequacy and coordination. For your particular issue, the standard of care applicable is to exercise reasonable skill and care expected of a competent member of your profession.")
       else String.mk [])
    a
  else if jsIncludes issueKeywords ("defect") || jsIncludes issueKeywords ("quality") || jsIncludes issueKeywords ("workmanship") then
    let a := ("Based on the specific quality/defect issue you\x27ve described, this analysis focuses on the relevant quality standards and defects provisions in your contract:")
    let a := a ++
      (if jsIncludes issueKeywords ("rectif") || jsIncludes issueKeywords ("repair") || jsIncludes issueKeywords ("remed") then
        ("\n\nYour specific issue concerns the rectification of defects in the works. For your particular situation, your contract contains provisions requiring the contractor to remedy defects identified during the works, at practical completion, or during a defects liability period.")
       else if jsIncludes issueKeywords ("reject") || jsIncludes issueKeywords ("remov") then
        ("\n\nYour specific issue involves rejected work or materials that do not comply with contractual requirements. For your particular situation, your contract typically gives the contract administrator power to reject non-compliant work and require its removal or replacement.")
       else if jsIncludes issueKeywords ("practical completion") || jsIncludes issueKeywords ("substantial completion") then
        ("\n\nYour specific issue relates to practical completion certification. For your particular situation, the standard for practical completion typically requires completion of the works without defects, other than minor defects that do not prevent the works from being used for their intended purpose.")
       else
        ("\n\nYour specific issue relates to quality matters affecting the project. Based on your description, your contract typically requires work to be completed in accordance with the specification, in a proper and workmanlike manner, using materials of the quality and standards described in the contract documents."))
    let a := a ++ ("\n\n")
    let a := a ++
      (if jsIncludes contractType ("JCT") then
        ("Your JCT contract contains specific provisions regarding quality and defects that apply to your situation. For your specific issue, Clause 2.1 typically requires the Contractor to carry out and complete the works in accordance with the Contract Documents, statutory requirements, and instructions. Clause 3.18 gives the Architect/Contract Administrator power to issue instructions requiring the removal of non-compliant work and materials.") ++
          (if jsIncludes issueKeywords ("practical completion") then
            (" For your particular issue concerning practical completion, your JCT contract generally requires the works to be complete for all practical purposes, capable of being occupied and used for their intended purpose, with only minor items outstanding that can be completed without significant disruption.")
           else String.mk [])
       else if jsIncludes contractType ("NEC") then
        ("Your NEC contract addresses quality through the concept of \x27Defects\x27. For your specific issue, a Defect is defined as part of the works not in accordance with the Works Information/Scope or applicable law. Clause 43 requires the Contractor and Project Manager to notify each other of Defects they find, with the Supervisor also empowered to identify Defects under clause 42.") ++
          (if jsIncludes issueKeywords ("completion") then
            (" For your particular issue concerning completion, your NEC contract requires the Contractor to have done all the work that the Works Information/Scope states they are to do by the Completion Date and to have corrected notified Defects that would prevent the Employer from using the works.")
           else String.mk [])
       else
        ("For your specific quality/defect issue, the relevant provisions governing quality and defects in your contract should be carefully reviewed. Key considerations for your situation include: the defined quality standards and testing procedures; the process for identifying and notifying defects; the contractor\x27s obligation to rectify defects and the timeframe for doing so; and any limitations on liability for defects."))
    let a := a ++
      (if jsIncludes role ("Contractor") || jsIncludes role ("Sub-contractor") then
        ("\n\nAs a ") ++ role ++ (" in this specific situation, you have primary responsibility for ensuring that work complies with the contractual requirements and is free from defects. For your particular issue, implementing appropriate quality control procedures, ensuring proper supervision, and promptly addressing any defects identified are especially relevant.")
       else if jsIncludes role ("Client") || jsIncludes role ("Employer") then
        ("\n\nAs the ") ++ role ++ (" in this specific situation, you are entitled to works that comply with the contractual requirements. For your particular issue, ensuring that defects are properly notified in accordance with the contract and that any remedial works are adequately supervised is especially important.")
       else if jsIncludes role ("Contract Administrator") || jsIncludes role ("Architect") || jsIncludes role ("Engineer") then
        ("\n\nIn your role as ") ++ role ++ (" for this specific situation, you have specific responsibilities regarding quality control and defects management. For your particular issue, these typically include inspecting the works, identifying defects, issuing instructions for remedial work, and determining whether practical completion has been achieved.")
       else String.mk [])
    a
  else
    let a := ("Based on the specific contractual issue you\x27ve described, this analysis focuses on the relevant interpretative principles and provisions that apply to your situation:")
    let a := a ++ ("\n\nYour specific issue involves matters of contract interpretation and implementation that require careful analysis of the particular terms and conditions in your agreement that are relevant to your situation. For your particular issue, the following interpretative principles are most relevant:")
    let a := a ++ ("\n\n• The objective approach - focusing on what a reasonable person with the background knowledge available to the parties would understand the relevant contract terms to mean;")
    let a := a ++ ("\n• The whole agreement approach - reading the relevant provisions as part of the entire contract rather than in isolation;")
    let a := a ++ ("\n• The business efficacy principle - favoring interpretations that give commercial sense to the agreement in your specific circumstances.")
    let a := a ++
      (if jsIncludes contractType ("JCT") || jsIncludes contractType ("NEC") || jsIncludes contractType ("FIDIC") then
        ("\n\nYour ") ++ contractType ++ (" has established interpretations through case law and industry practice that are relevant to your specific issue. When addressing your particular concern, these established interpretations provide guidance on how the relevant provisions should be applied to your situation.")
       else
        ("\n\nYour bespoke contract should be interpreted according to its specific drafting and the circumstances of your project, with particular focus on the provisions most relevant to your issue."))
    let a := a ++ ("\n\nFor your specific contractual issue, key areas to consider include:")
    let a := a ++ ("\n\n• The hierarchy of contract documents and how conflicts between different documents are resolved in relation to your specific issue;")
    let a := a ++ ("\n• Any specifically negotiated amendments to standard terms that are relevant to your issue;")
    let a := a ++ ("\n• The objective of the relevant provisions and what they were intended to achieve in circumstances like yours;")
    let a := a ++ ("\n• The conduct of the parties to date in relation to your specific issue and whether this establishes a pattern of interpretation.")
    let a := a ++
      (if jsIncludes role ("Contractor") || jsIncludes role ("Sub-contractor") then
        ("\n\nAs a ") ++ role ++ (" facing this specific issue, you should review the contract provisions directly relevant to your concern, gather supporting documentation that evidences your interpretation, and present your position clearly with reference to the specific contract terms that apply to your situation.")
       else if jsIncludes role ("Client") || jsIncludes role ("Employer") then
        ("\n\nAs the ") ++ role ++ (" facing this specific issue, you should ensure that your interpretation of the contract is consistent with both the specific wording of the relevant provisions and the overall scheme of the agreement. For your particular issue, contemporaneous records of discussions during contract formation may provide important context.")
       else if jsIncludes role ("Contract Administrator") || jsIncludes role ("Architect") || jsIncludes role ("Engineer") then
        ("\n\nIn your role as ") ++ role ++ (" addressing this specific issue, you may be required to make determinations that involve interpreting the relevant contract provisions. For your particular issue, these determinations should be made impartially, based on a reasonable interpretation of the contract in its commercial context.")
       else String.mk [])
    a

/-- generateLegalContext of the app context's template renderer: a fixed
legal-framework preamble, issue-keyword-conditioned legislation and case
law paragraphs, and a dispute-resolution tail. -/
def generateLegalContext (contractType issueDescription : String) : String :=
  let issueKeywords := jsToLowerCase issueDescription
  let context := ("LEGAL FRAMEWORK DIRECTLY RELEVANT TO YOUR ISSUE:")
  let context := context ++
    (if jsIncludes contractType ("JCT") || jsIncludes contractType ("NEC") || jsIncludes contractType ("FIDIC") then
      ("\n\n• Your ") ++ contractType ++ (" Contract: This forms the primary legal basis for resolving your specific dispute. The specific clauses identified above establish the parties\x27 respective rights and obligations directly relevant to your issue, the procedures for addressing this particular matter, and the remedies available in your situation.")
     else
      ("\n\n• Your Specific Contract Agreement: This forms the primary legal basis for resolving your specific dispute. The specific clauses relevant to your issue establish the rights and obligations that apply directly to your situation, the procedures for addressing your particular issue, and the remedies available to you."))
  let context := context ++
    (if jsIncludes issueKeywords ("payment") then
      ("\n\n• The Housing Grants, Construction and Regeneration Act 1996 (as amended): For your specific payment issue, this legislation provides statutory rights that apply regardless of your contract terms, including:")
      ++ ("\n   - Specific requirements for payment mechanisms and notice provisions that apply to your situation")
      ++ ("\n   - The right to refer your specific dispute to adjudication")
      ++ ("\n   - The right to suspend performance for non-payment following proper notice if applicable to your situation")
      ++ ("\n\n• The Late Payment of Commercial Debts (Interest) Act 1998: For your specific payment issue, this legislation provides a statutory entitlement to interest on late payments at 8% above the Bank of England base rate, plus potential recovery of costs associated with pursuing payment.")
      ++ ("\n\n• Part II of the Construction Act (Sections 109-113): For your specific payment issue, these sections address:")
      ++ ("\n   - Requirements for an adequate mechanism for determining what payments become due and when")
      ++ ("\n   - The requirement for a final date for payment")
      ++ ("\n   - Provision for notices of intention to withhold payment (\x27Pay Less Notices\x27)")
      ++ ("\n\n• Relevant Case Law: For your specific payment issue, the following cases establish important legal principles that may apply:")
      ++ ("\n   - S&T (UK) Ltd v Grove Developments Ltd [2018] EWCA Civ 2448: Establishing the importance of valid payment and pay less notices")
      ++ (if jsIncludes issueKeywords ("notice") || jsIncludes issueKeywords ("notif") then
           ("\n   - ISG Construction Ltd v Seevic College [2014] EWHC 4007 (TCC): Highlighting the consequences of failing to issue payment notices")
           ++ ("\n   - Henia Investments Inc v Beck Interiors Ltd [2015] EWHC 2433 (TCC): Addressing the requirements for a valid payment application")
          else String.mk [])
     else if jsIncludes issueKeywords ("delay") || jsIncludes issueKeywords ("extension") then
      ("\n\n• The Housing Grants, Construction and Regeneration Act 1996: For your specific delay issue, this legislation provides the right to refer your dispute to adjudication at any time, which could be relevant if your extension of time claim remains unresolved.")
      ++ ("\n\n• Relevant Case Law: For your specific delay issue, the following cases establish important legal principles that may apply:")
      ++ ("\n   - Walter Lilly & Co Ltd v Mackay [2012] EWHC 1773 (TCC): Providing guidance on extension of time claims and concurrent delay")
      ++ (if jsIncludes issueKeywords ("concurrent") then
           ("\n   - North Midland Building Ltd v Cyden Homes Ltd [2018] EWCA Civ 1744: Establishing that parties can allocate the risk of concurrent delay through express contractual provisions")
          else String.mk [])
      ++ (if jsIncludes issueKeywords ("global claim") || jsIncludes issueKeywords ("global") then
           ("\n   - Multiplex Construction (UK) Ltd v Honeywell Control Systems Ltd [2007] EWHC 447 (TCC): Addressing global claims and the burden of proof in delay claims")
          else String.mk [])
     else if jsIncludes issueKeywords ("variation") || jsIncludes issueKeywords ("change") then
      ("\n\n• The Housing Grants, Construction and Regeneration Act 1996: For your specific variation issue, this legislation provides the right to refer your dispute to adjudication at any time, which could be relevant if your variation claim remains unresolved.")
      ++ ("\n\n• Common Law Principles Regarding Variations: For your specific variation issue, these principles establish that:")
      ++ ("\n   - Variations must be instructed in accordance with the contract to be valid")
      ++ ("\n   - The scope of permitted variations may be limited to changes of a similar nature and scale to the original works")
      ++ ("\n\n• Relevant Case Law: For your specific variation issue, the following cases establish important legal principles that may apply:")
      ++ (if jsIncludes issueKeywords ("verbal") || jsIncludes issueKeywords ("instruct") || jsIncludes issueKeywords ("authoriz") || jsIncludes issueKeywords ("authoris") then
           ("\n   - Blue v Ashley [2017] EWHC 1928 (Comm): Emphasizing the importance of following contractual variation procedures")
           ++ ("\n   - RTS Flexible Systems Ltd v Molkerei Alois Müller GmbH [2010] UKSC 14: Addressing when work proceeds before formal contract execution")
          else String.mk [])
      ++ (if jsIncludes issueKeywords ("valuation") then
           ("\n   - Henry Boot Construction Ltd v Alstom Combined Cycles Ltd [2005] EWCA Civ 814: Addressing the valuation of variations where the contract provides a specific mechanism")
          else String.mk [])
     else if jsIncludes issueKeywords ("defect") || jsIncludes issueKeywords ("quality") then
      (if jsIncludes issueKeywords ("dwelling") || jsIncludes issueKeywords ("residential") || jsIncludes issueKeywords ("house") then
        ("\n\n• The Defective Premises Act 1972: For your specific quality issue involving a dwelling, Section 1 imposes a duty to ensure the work is done in a workmanlike or professional manner, with proper materials, and that the dwelling is fit for habitation when completed.")
       else String.mk [])
      ++ ("\n\n• The Building Act 1984 and Building Regulations: For your specific quality issue, these establish minimum technical standards for design and construction that may be relevant to determining what constitutes defective work in your situation.")
      ++ ("\n\n• The Supply of Goods and Services Act 1982: For your specific quality issue, this implies terms that services will be carried out with reasonable care and skill, within a reasonable time, and for a reasonable charge, which may be relevant to quality standards in your situation.")
      ++ ("\n\n• Relevant Case Law: For your specific quality issue, the following cases establish important legal principles that may apply:")
      ++ (if jsIncludes issueKeywords ("design") || jsIncludes issueKeywords ("specification") then
           ("\n   - MT Højgaard A/S v E.ON Climate & Renewables UK Robin Rigg East Ltd [2017] UKSC 59: Addressing fitness for purpose obligations in construction contracts")
          else String.mk [])
      ++ (if jsIncludes issueKeywords ("rectif") || jsIncludes issueKeywords ("repair") || jsIncludes issueKeywords ("remed") then
           ("\n   - McGlinn v Waltham Contractors Ltd [2007] EWHC 149 (TCC): Providing guidance on the assessment of damages for defective work")
          else String.mk [])
      ++ (if jsIncludes issueKeywords ("limitation") || jsIncludes issueKeywords ("liability") then
           ("\n   - Trebor Bassett Holdings Ltd v ADT Fire & Security plc [2012] EWCA Civ 1158: Addressing limitation of liability clauses in relation to defective work")
          else String.mk [])
     else if jsIncludes issueKeywords ("design") then
      ("\n\n• Common Law Principles Regarding Design Responsibility: For your specific design issue, these principles establish that:")
      ++ ("\n   - A \x27reasonable skill and care\x27 obligation is measured against the standard of a reasonably competent member of the relevant profession")
      ++ ("\n   - A \x27fitness for purpose\x27 obligation is stricter, requiring the design to be suitable for its intended purpose")
      ++ ("\n\n• Relevant Case Law: For your specific design issue, the following cases establish important legal principles that may apply:")
      ++ ("\n   - MT Højgaard A/S v E.ON Climate & Renewables UK Robin Rigg East Ltd [2017] UKSC 59: Addressing the distinction between \x27reasonable skill and care\x27 and \x27fitness for purpose\x27 obligations")
      ++ (if jsIncludes contractType ("Design and Build") || jsIncludes issueKeywords ("contractor design") then
           ("\n   - SSE Generation Ltd v Hochtief Solutions AG [2018] CSIH 26: Addressing design obligations in design and build contracts")
          else String.mk [])
     else String.mk [])
  let context := context ++ ("\n\n• Dispute Resolution Options: For your specific issue, you have several options to resolve the dispute:")
  let context := context ++ ("\n   - Adjudication: A statutory right providing a 28-day procedure for an interim binding decision on your specific dispute")
  let context := context ++ ("\n   - Mediation: A non-binding facilitated negotiation process that may help preserve commercial relationships while resolving your specific issue")
  let context := context ++
    (if jsIncludes contractType ("arbitration") || jsIncludes issueKeywords ("arbitration") then
      ("\n   - Arbitration: If provided for in your contract, a private binding dispute resolution process for your specific issue")
     else String.mk [])
  let context := context ++ ("\n   - Litigation: Court proceedings, typically in the Technology and Construction Court for significant construction disputes like yours")
  context

/-- generateClauseExplanations of the app context's template renderer: a
boilerplate explanation per clause reference, branched on the
contract-type family and substring tests on the clause number. -/
def generateClauseExplanations (relevantClauses : List String) (contractType : String) : List String :=
  relevantClauses.map (fun clause =>
    if jsIncludes contractType ("JCT") then
      if jsIncludes clause ("4.8") || jsIncludes clause ("4.9") || jsIncludes clause ("4.10") || jsIncludes clause ("4.11") || jsIncludes clause ("4.12") || jsIncludes clause ("4.13") then
        clause ++ (": This provision is directly relevant to your payment issue. It establishes the payment application, certification, and payment process, including timeframes that apply specifically to your situation. For your specific issue, these clauses must be read in conjunction with the Construction Act requirements regarding payment notices and pay less notices.")
      else if jsIncludes clause ("2.26") || jsIncludes clause ("2.27") || jsIncludes clause ("2.28") || jsIncludes clause ("2.29") then
        clause ++ (": This clause is directly relevant to your delay issue. It defines \x27Relevant Events\x27 that entitle the contractor to additional time, the notification requirements, and the procedure for assessment that apply specifically to your situation. For your specific issue, key aspects include the contractor\x27s notification obligations and the contract administrator\x27s duty to make a \x27fair and reasonable\x27 assessment.")
      else if jsIncludes clause ("2.30") || jsIncludes clause ("2.31") then
        clause ++ (": This clause is directly relevant to your acceleration issue. It addresses acceleration of the works, which involves completing the project earlier than would otherwise be possible. For your specific situation, this clause provides for negotiations regarding a Confirmed Acceptance, which is relevant to resolving your particular issue.")
      else if jsIncludes clause ("3.14") || jsIncludes clause ("3.15") || jsIncludes clause ("3.16") then
        clause ++ (": This provision is directly relevant to your variation issue. It establishes the contract administrator\x27s power to issue instructions changing the works, the contractor\x27s duty to comply, and the basis for valuation that applies specifically to your situation. For your specific issue, variations must be properly instructed in writing to create an entitlement to additional payment.")
      else if jsIncludes clause ("2.38") || jsIncludes clause ("2.39") || jsIncludes clause ("2.40") then
        clause ++ (": This clause is directly relevant to your defects issue. It addresses the defects liability period (or \x27rectification period\x27), during which the contract administrator may issue instructions requiring the contractor to remedy defects at no additional cost. For your specific situation, this clause establishes rights and obligations regarding defect rectification that apply to your particular issue.")
      else if jsIncludes clause ("4.21") || jsIncludes clause ("4.22") || jsIncludes clause ("4.23") then
        clause ++ (": This provision is directly relevant to your loss and expense issue. It governs loss and expense claims, which allow the contractor to recover additional costs caused by matters for which the employer is responsible. For your specific situation, this clause establishes the process for claiming and assessing loss and expense that applies to your particular issue.")
      else if jsIncludes clause ("6.4") || jsIncludes clause ("6.5") then
        clause ++ (": This provision is directly relevant to your payment issue. It addresses the contractor\x27s right to suspend performance for non-payment, a right reinforced by the Construction Act. For your specific situation, this clause establishes the notice requirements and entitlements regarding suspension that apply to your particular issue.")
      else if jsIncludes clause ("8.9") || jsIncludes clause ("8.10") || jsIncludes clause ("8.11") then
        clause ++ (": This clause is directly relevant to your termination issue. It addresses termination rights, which allow a party to bring the contract to an end in specified circumstances. For your specific situation, this clause establishes the grounds, procedures, and consequences of termination that apply to your particular issue.")
      else
        clause ++ (": This provision in your JCT contract is directly relevant to your specific issue. It should be interpreted in the context of your particular situation and the specific facts of your case, considering the commercial purpose of the provision and how it applies to your circumstances.")
    else if jsIncludes contractType ("NEC") then
      if jsIncludes clause ("10.1") then
        clause ++ (": This fundamental provision stating that the parties shall act in a \x27spirit of mutual trust and co-operation\x27 is directly relevant to your issue. For your specific situation, this obligation creates enforceable obligations of good faith that apply to how your particular issue should be approached and resolved.")
      else if jsIncludes clause ("50") || jsIncludes clause ("51") then
        clause ++ (": This provision is directly relevant to your payment issue. It establishes the assessment cycle, items to be included in assessments, and timing for payment following assessment that apply specifically to your situation. For your specific issue, the Project Manager\x27s obligation to make proactive assessments in accordance with the contract is particularly relevant.")
      else if jsIncludes clause ("60") || jsIncludes clause ("61") || jsIncludes clause ("62") then
        clause ++ (": This clause is directly relevant to your compensation event issue. It defines Compensation Events, notification requirements, and the quotation procedure that apply specifically to your situation. For your specific issue, timely notification and preparation of quotations in accordance with these provisions is critical to preserving entitlement.")
      else if jsIncludes clause ("63") then
        clause ++ (": This clause is directly relevant to your compensation event assessment issue. It establishes the principles for assessing Compensation Events, requiring forecasts of the effect on Defined Cost and any delay. For your specific situation, this prospective approach to assessment is particularly relevant to how your issue should be evaluated.")
      else if jsIncludes clause ("15") then
        clause ++ (": This provision is directly relevant to your early warning issue. It establishes the procedure requiring both parties to notify each other of matters that could increase costs, delay completion, or impair performance. For your specific situation, the Early Warning process is particularly relevant to how your issue should have been managed.")
      else if jsIncludes clause ("30") || jsIncludes clause ("31") || jsIncludes clause ("32") then
        clause ++ (": This clause is directly relevant to your programming issue. It addresses programming requirements, including submission, content, and updating procedures. For your specific situation, the role of the Accepted Programme in assessing delays and Compensation Events is particularly relevant to resolving your issue.")
      else if jsIncludes clause ("40") || jsIncludes clause ("41") || jsIncludes clause ("42") || jsIncludes clause ("43") then
        clause ++ (": This provision is directly relevant to your quality/defects issue. It establishes quality standards, testing procedures, identification and notification of Defects, and correction obligations that apply specifically to your situation. For your specific issue, the definition of a Defect as part of the works not in accordance with the Scope is particularly relevant.")
      else if jsIncludes clause ("91") || jsIncludes clause ("92") || jsIncludes clause ("93") then
        clause ++ (": This clause is directly relevant to your termination issue. It specifies the grounds on which each party may terminate, the required notice procedure, and the financial consequences that apply specifically to your situation. For your specific issue, the termination grounds and procedures are particularly relevant to determining the lawfulness of the termination.")
      else
        clause ++ (": This provision in your NEC contract is directly relevant to your specific issue. It should be interpreted in accordance with NEC principles of clarity and proactive management, focusing specifically on how it applies to your particular situation and the facts of your case.")
    else if jsIncludes contractType ("FIDIC") then
      if jsIncludes clause ("2.5") || jsIncludes clause ("3.5") || jsIncludes clause ("20.1") then
        clause ++ (": This provision is directly relevant to your claims issue. It establishes notification and claims procedures that are fundamental to preserving entitlements. For your specific situation, the time limits for notice (often 28 days) and the Engineer\x27s duty to make a fair determination are particularly relevant to your issue.")
      else if jsIncludes clause ("8.4") || jsIncludes clause ("8.5") then
        clause ++ (": This clause is directly relevant to your extension of time issue. It specifies the events that qualify for EOT and the notification and assessment procedures that apply specifically to your situation. For your specific issue, the requirements to demonstrate that a qualifying event has caused delay and to provide timely notice are particularly relevant.")
      else if jsIncludes clause ("13.1") || jsIncludes clause ("13.2") || jsIncludes clause ("13.3") then
        clause ++ (": This provision is directly relevant to your variation issue. It establishes the Engineer\x27s right to initiate variations, the Contractor\x27s obligation to execute them, and the valuation methodology that apply specifically to your situation. For your specific issue, the valuation hierarchy is particularly relevant to determining the proper value of the variation.")
      else if jsIncludes clause ("14") then
        clause ++ (": This clause is directly relevant to your payment issue. It governs the Contract Price and payment procedures, including applications, certification, timing, and consequences of late payment that apply specifically to your situation. For your specific issue, the content requirements for payment certificates and timing for payment are particularly relevant.")
      else if jsIncludes clause ("16") || jsIncludes clause ("19") then
        clause ++ (": This provision is directly relevant to your suspension/force majeure issue. It addresses the circumstances in which the Contractor may suspend work or either party may claim relief due to exceptional events. For your specific situation, the notice requirements and entitlements are particularly relevant to resolving your issue.")
      else if jsIncludes clause ("4.1") || jsIncludes clause ("4.2") then
        clause ++ (": This clause is directly relevant to your contractor obligations issue. It establishes the Contractor\x27s general obligations, including the duty to execute the Works in accordance with the Contract. For your specific situation, the standard of care required and compliance obligations are particularly relevant to your issue.")
      else if jsIncludes clause ("7") || jsIncludes clause ("9") then
        clause ++ (": This provision is directly relevant to your testing/completion issue. It deals with testing, completion, and defects liability, establishing procedures for tests, completion certificates, and defects rectification. For your specific situation, the procedures and standards for completion and defect identification are particularly relevant.")
      else
        clause ++ (": This provision in your FIDIC contract is directly relevant to your specific issue. It should be interpreted according to your contract\x27s governing law and FIDIC principles, focusing specifically on how it applies to your particular situation and the facts of your case.")
    else
      clause ++ (": This provision in your specific contract establishes important rights and obligations directly relevant to your issue. To properly apply this clause to your situation, the precise wording should be considered in the context of your specific circumstances, your contract\x27s commercial purpose, and the particular facts of your case."))

/-- generatePotentialOutcomes of the app context's template renderer:
numbered outcome paragraphs selected by issue keywords (the role parameter
is accepted but unused by the source's branches). -/
def generatePotentialOutcomes (issueDescription contractType role : String) : String :=
  let issueKeywords := jsToLowerCase issueDescription
  let outcomes := ("Based on your specific issue and the applicable contractual framework, potential outcomes directly relevant to your situation include:")
  let outcomes := outcomes ++
    (if jsIncludes issueKeywords ("payment") then
      ("\n\n1. Negotiated Resolution")
      ++ ("\n   • A direct agreement between parties on the disputed payment based on contractual entitlements.")
      ++ ("\n   • For your specific situation, this could involve agreement on the precise valuation or a commercial compromise.")
      ++ ("\n\n2. Application of Contractual Mechanisms")
      ++ ("\n   • Utilization of the specific payment notice procedures under your contract and the Construction Act.")
      ++ ("\n   • For your situation, this could result in \x27default payment\x27 if proper notices were not issued.")
      ++ ("\n\n3. Formal Dispute Resolution")
      ++ ("\n   • If other approaches fail, progression to adjudication, which is particularly suitable for payment disputes.")
      ++ ("\n   • For your specific situation, an adjudicator would determine the amount due based on your contract terms and the evidence presented.")
     else if jsIncludes issueKeywords ("delay") then
      ("\n\n1. Extension of Time Award")
      ++ ("\n   • Assessment and award of additional time to complete the works without liability for liquidated damages.")
      ++ ("\n   • For your specific situation, this could involve full or partial extension based on your entitlement and evidence.")
      ++ (if jsIncludes issueKeywords ("compensation") || jsIncludes issueKeywords ("loss") || jsIncludes issueKeywords ("expense") then
           ("\n\n2. Financial Compensation")
           ++ ("\n   • Recovery of financial costs associated with the delay if it is a compensable event under your contract.")
           ++ ("\n   • For your specific situation, this could include extended preliminaries and other time-related costs.")
          else String.mk [])
      ++ (if jsIncludes issueKeywords ("liquidated") || jsIncludes issueKeywords ("damages") then
           ("\n\n3. Liquidated Damages Assessment")
           ++ ("\n   • If the delay is determined to be your responsibility, application of liquidated damages at the contractual rate.")
           ++ ("\n   • For your specific situation, this would involve deduction of the pre-agreed sum for contractor-caused delay.")
          else String.mk [])
      ++ ("\n\n4. Formal Dispute Resolution")
      ++ ("\n   • If agreement cannot be reached, progression to adjudication or other formal dispute resolution.")
      ++ ("\n   • For your specific situation, this would provide an independent determination of time entitlement.")
     else if jsIncludes issueKeywords ("variation") || jsIncludes issueKeywords ("change") then
      ("\n\n1. Valuation Agreement")
      ++ ("\n   • Agreement on the value of the variation and any associated time implications.")
      ++ ("\n   • For your specific situation, this could involve acceptance of your valuation or a negotiated sum.")
      ++ (if jsIncludes issueKeywords ("instruct") || jsIncludes issueKeywords ("authoriz") || jsIncludes issueKeywords ("authoris") then
           ("\n\n2. Disputed Instruction Status")
           ++ ("\n   • Resolution of whether a proper variation instruction was issued for the work in question.")
           ++ ("\n   • For your specific situation, this could involve retrospective formalization or rejection of the claim.")
          else String.mk [])
      ++ ("\n\n3. Formal Dispute Resolution")
      ++ ("\n   • If agreement cannot be reached, progression to adjudication or other formal dispute resolution.")
      ++ ("\n   • For your specific situation, this would provide an independent determination on both entitlement and valuation.")
     else if jsIncludes issueKeywords ("defect") || jsIncludes issueKeywords ("quality") then
      ("\n\n1. Remedial Works Agreement")
      ++ ("\n   • Agreement on the scope, method, and timing of remedial works to address the identified defects.")
      ++ ("\n   • For your specific situation, this could involve a detailed remediation plan with agreed criteria for acceptance.")
      ++ ("\n\n2. Financial Adjustment")
      ++ ("\n   • Agreement on financial compensation instead of remedial works, particularly for minor defects.")
      ++ ("\n   • For your specific situation, this could involve a reduction in contract sum proportionate to the defect impact.")
      ++ ("\n\n3. Expert Determination")
      ++ ("\n   • Appointment of independent expert to determine technical aspects of the defects dispute.")
      ++ ("\n   • For your specific situation, this could resolve disagreements about whether works are defective or the required remediation.")
      ++ ("\n\n4. Formal Dispute Resolution")
      ++ ("\n   • If agreement cannot be reached, progression to adjudication or other formal dispute resolution.")
      ++ ("\n   • For your specific situation, this would provide an independent determination on defect liability and remediation.")
     else if jsIncludes issueKeywords ("design") then
      ("\n\n1. Design Responsibility Determination")
      ++ ("\n   • Clarification of design responsibility allocation between parties for the specific elements in question.")
      ++ ("\n   • For your specific situation, this could resolve whether responsibility lies with employer, contractor, or design consultant.")
      ++ ("\n\n2. Design Solution Agreement")
      ++ ("\n   • Agreement on required design changes or remediation to address the identified issues.")
      ++ ("\n   • For your specific situation, this could involve revised designs with clear approval procedures.")
      ++ ("\n\n3. Cost and Time Impact Resolution")
      ++ ("\n   • Agreement on financial and programme implications of design changes or remediation.")
      ++ ("\n   • For your specific situation, this could involve additional payment and/or extension of time if appropriate.")
      ++ ("\n\n4. Formal Dispute Resolution")
      ++ ("\n   • If agreement cannot be reached, progression to adjudication or other formal dispute resolution.")
      ++ ("\n   • For your specific situation, this would provide an independent determination on design liability and remediation.")
     else
      ("\n\n1. Contractual Resolution Through Existing Mechanisms")
      ++ ("\n   • Application of specific contractual procedures designed to address your particular issue.")
      ++ ("\n   • For your specific situation, this could involve determination by the contract administrator or project manager.")
      ++ ("\n\n2. Negotiated Commercial Settlement")
      ++ ("\n   • A commercial compromise specifically addressing your issue that balances the interests of both parties.")
      ++ ("\n   • For your specific situation, this could involve concessions on both sides to reach an acceptable resolution.")
      ++ ("\n\n3. Mediation")
      ++ ("\n   • Engagement of neutral mediator to facilitate negotiated resolution of your specific issue.")
      ++ ("\n   • For your specific situation, this could help preserve commercial relationships while resolving the dispute.")
      ++ ("\n\n4. Adjudication")
      ++ ("\n   • Statutory 28-day dispute resolution process delivering a temporarily binding decision on your specific issue.")
      ++ ("\n   • For your specific situation, this would provide a quick resolution while preserving rights to final determination.")
      ++ ("\n\n5. Arbitration or Litigation")
      ++ ("\n   • Final binding determination of your specific issue through arbitration or court proceedings.")
      ++ ("\n   • For your specific situation, this would provide comprehensive legal assessment of all aspects of your dispute."))
  outcomes

/-- generateTimelineSuggestions of the app context's template renderer:
staged action timelines selected by issue keywords. -/
def generateTimelineSuggestions (issueDescription : String) : String :=
  let issueKeywords := jsToLowerCase issueDescription
  let timeline := ("Recommended timeline for addressing your specific issue:")
  let timeline := timeline ++
    (if jsIncludes issueKeywords ("payment") then
      ("\n\nImmediate Actions (1-3 days)")
      ++ ("\n• Review your contract payment terms and notice requirements that specifically apply to your situation.")
      ++ ("\n• Verify status of all payment applications, notices, and certificates relevant to your specific issue.")
      ++ ("\n• Compile all documentation relevant to your payment issue (applications, notices, certificates).")
      ++ ("\n• Quantify the exact amount claimed in your specific situation with supporting calculations.")
      ++ ("\n\nShort-Term Actions (3-7 days)")
      ++ ("\n• Issue formal correspondence clearly stating your position with reference to contract clauses.")
      ++ ("\n• Request a meeting with relevant decision-makers to discuss resolution of your specific payment issue.")
      ++ ("\n• Prepare detailed payment reconciliation showing amounts applied for, certified, paid, and outstanding.")
      ++ ("\n\nMedium-Term Actions (7-14 days)")
      ++ ("\n• If payment remains unresolved, consider whether to issue notice of intention to suspend performance.")
      ++ ("\n• Consider whether to claim interest under contractual provisions or the Late Payment legislation.")
      ++ ("\n• Engage senior management from both organizations in resolution discussions.")
      ++ ("\n\nLonger-Term Actions (14-28 days)")
      ++ ("\n• If your specific payment issue remains unresolved, consider formal dispute resolution options.")
      ++ ("\n• Prepare necessary documentation for adjudication if required for your situation.")
     else if jsIncludes issueKeywords ("delay") then
      ("\n\nImmediate Actions (1-3 days)")
      ++ ("\n• Document the specific cause and extent of delay with supporting evidence.")
      ++ ("\n• Review your contract provisions regarding extension of time that apply to your situation.")
      ++ ("\n• Check programme impact using appropriate scheduling method for your specific delay.")
      ++ ("\n• Verify compliance with contractual time limits for notifications relevant to your situation.")
      ++ ("\n\nShort-Term Actions (3-7 days)")
      ++ ("\n• Issue formal delay notification in accordance with your contractual requirements.")
      ++ ("\n• Implement mitigation measures to minimize the impact of your specific delay.")
      ++ ("\n• Hold a delay impact assessment meeting with relevant project team members.")
      ++ ("\n• Begin tracking costs associated with your specific delay for potential loss and expense claim.")
      ++ ("\n\nMedium-Term Actions (7-21 days)")
      ++ ("\n• Submit detailed extension of time application with supporting documentation for your specific delay.")
      ++ ("\n• Request extension of time assessment meeting with contract administrator/project manager.")
      ++ ("\n• Continue documenting progress and impact of your specific delay event.")
      ++ ("\n\nLonger-Term Actions (21-42 days)")
      ++ ("\n• Follow up on extension of time application if no response received within contractual timeframe.")
      ++ ("\n• Submit loss and expense claim if your specific delay is compensable under the contract.")
      ++ ("\n• Consider whether acceleration measures might be appropriate for your situation.")
     else if jsIncludes issueKeywords ("variation") || jsIncludes issueKeywords ("change") then
      ("\n\nImmediate Actions (1-3 days)")
      ++ ("\n• Clarify whether your specific variation has been properly instructed in accordance with your contract.")
      ++ ("\n• Review your contract provisions regarding variation instructions, valuation, and notification.")
      ++ ("\n• Document the current status of works affected by your specific variation.")
      ++ ("\n• Assess initial scope and potential impact of your variation on programme and cost.")
      ++ ("\n\nShort-Term Actions (3-7 days)")
      ++ ("\n• If variation instruction was not properly issued, seek formal confirmation or regularization.")
      ++ ("\n• Submit initial notification of time and cost implications for your specific variation.")
      ++ ("\n• Prepare method statement and resource plan for executing your varied work.")
      ++ ("\n\nMedium-Term Actions (7-14 days)")
      ++ ("\n• Submit detailed variation quotation for your specific change, including direct costs, preliminaries impact, and programme implications.")
      ++ ("\n• Seek formal acceptance of quotation if your contract mechanism allows.")
      ++ ("\n• Begin implementing your variation while maintaining detailed records.")
      ++ ("\n\nDuring Execution (Ongoing)")
      ++ ("\n• Maintain detailed records specific to your variation, including labor, plant, and materials.")
      ++ ("\n• Document any changes to your variation scope during execution.")
      ++ ("\n• Provide regular updates on your variation progress and cost.")
     else if jsIncludes issueKeywords ("defect") || jsIncludes issueKeywords ("quality") then
      ("\n\nImmediate Actions (1-3 days)")
      ++ ("\n• Document the specific defects thoroughly with photographs and measurements.")
      ++ ("\n• Review your contract provisions regarding quality standards and defects rectification.")
      ++ ("\n• Identify potential causes of your specific defects and responsibility allocation.")
      ++ ("\n\nShort-Term Actions (3-7 days)")
      ++ ("\n• Issue formal defect notification in accordance with your contractual procedures.")
      ++ ("\n• Arrange inspection of the specific defects with relevant parties.")
      ++ ("\n• Prepare initial remediation proposal or response to defect notification for your situation.")
      ++ ("\n\nMedium-Term Actions (7-21 days)")
      ++ ("\n• Agree on scope, method, and timing of remedial works for your specific defects.")
      ++ ("\n• Address any disagreements about responsibility or required remediation for your situation.")
      ++ ("\n• Implement agreed remedial works or alternative resolution for your specific defects.")
      ++ ("\n\nLonger-Term Actions (21+ days)")
      ++ ("\n• Conduct inspection of completed remedial works for your specific defects.")
      ++ ("\n• Obtain formal acceptance of remedial works or further instruction if required.")
      ++ ("\n• Document lessons learned to prevent similar defects in future work.")
     else
      ("\n\nImmediate Actions (1-5 days)")
      ++ ("\n• Review the specific contract clauses relevant to your issue.")
      ++ ("\n• Gather all documentation related to your specific contractual issue.")
      ++ ("\n• Assess the factual circumstances and contractual position for your specific situation.")
      ++ ("\n• Compile chronology of events relevant to your specific issue with supporting documentation.")
      ++ ("\n\nShort-Term Actions (5-10 days)")
      ++ ("\n• Prepare a clear written statement of your position regarding your specific issue.")
      ++ ("\n• Document the commercial and practical impact of the issue on your operations.")
      ++ ("\n• Identify potential solutions that would be acceptable for your specific situation.")
      ++ ("\n• Issue formal correspondence setting out your position and proposed resolution.")
      ++ ("\n\nMedium-Term Actions (10-20 days)")
      ++ ("\n• Engage in direct discussion with the other party to explore resolution of your specific issue.")
      ++ ("\n• Consider whether any contractual determination mechanisms apply to your specific issue.")
      ++ ("\n• If initial discussions are unsuccessful, escalate to senior management level.")
      ++ ("\n\nLonger-Term Actions (20-40 days)")
      ++ ("\n• If direct negotiation is unsuccessful, consider alternative dispute resolution options for your specific issue.")
      ++ ("\n• Prepare detailed submission for chosen dispute resolution method addressing your specific issue.")
      ++ ("\n• Continue to explore settlement possibilities in parallel with formal processes."))
  timeline

/-- generateRiskAssessment of the app context's template renderer:
probability analysis branched on issue keyword and role, a fixed
cost-benefit section with keyword-conditioned benefits, and a recommended
approach branched on issue keyword. -/
def generateRiskAssessment (issueDescription contractType role : String) : String :=
  let issueKeywords := jsToLowerCase issueDescription
  let assessment := ("RISK ASSESSMENT SPECIFIC TO YOUR ISSUE:")
  let assessment := assessment ++ ("\n\nProbability Analysis for Your Specific Situation:")
  let assessment := assessment ++
    (if jsIncludes issueKeywords ("payment") && (jsIncludes role ("Contractor") || jsIncludes role ("Sub-contractor")) then
      ("\n\nBased on your specific payment issue, the probability of a favorable resolution depends on these key factors specific to your situation:")
      ++ ("\n• Whether your payment applications were properly submitted in accordance with your contract")
      ++ ("\n• Whether valid Payment Notices or Pay Less Notices were issued within statutory timeframes")
      ++ ("\n• Whether the work claimed has been substantively performed")
      ++ ("\n• Whether you have contemporaneous records supporting your valuation")
      ++ ("\n\nFor your specific payment issue, success probability decreases if:")
      ++ ("\n• Your applications did not comply with contractual requirements")
      ++ ("\n• There are genuine quality issues with the work claimed")
      ++ ("\n• Your claim includes loss and expense elements without detailed substantiation")
     else if jsIncludes issueKeywords ("payment") && (jsIncludes role ("Client") || jsIncludes role ("Employer")) then
      ("\n\nBased on your specific payment issue, your position strength depends primarily on procedural compliance with payment mechanisms. For your particular situation, your probability of successfully defending payment claims increases if:")
      ++ ("\n• Valid Payment Notices and/or Pay Less Notices were issued within required timeframes")
      ++ ("\n• Notices contained the required information (amount proposed, basis of calculation)")
      ++ ("\n• There are genuine, documented defects or non-compliant work")
      ++ ("\n\nFor your specific payment issue, your position is significantly weakened if:")
      ++ ("\n• Notices were not issued, were late, or were inadequately detailed")
      ++ ("\n• You failed to operate the contractual payment mechanism consistently")
     else if jsIncludes issueKeywords ("delay") && (jsIncludes role ("Contractor") || jsIncludes role ("Sub-contractor")) then
      ("\n\nBased on your specific delay issue, your probability of success depends on these key factors:")
      ++ ("\n• Whether the delay event is a relevant event/compensation event under your contract")
      ++ ("\n• Whether proper notice was given in accordance with your contract")
      ++ ("\n• Whether you have evidence demonstrating both cause and effect of the delay")
      ++ ("\n• Whether you took reasonable steps to mitigate the delay")
      ++ ("\n\nFor your specific delay issue, success probability for financial recovery depends on:")
      ++ ("\n• Whether your contract identifies this specific event as compensable")
      ++ ("\n• Whether you have detailed records of specific additional costs caused")
     else if jsIncludes issueKeywords ("variation") && (jsIncludes role ("Contractor") || jsIncludes role ("Sub-contractor")) then
      ("\n\nBased on your specific variation issue, your probability of success depends on these key factors:")
      ++ ("\n• Whether the variation was properly instructed in accordance with your contract")
      ++ ("\n• Whether the instruction was given by someone with appropriate authority")
      ++ ("\n• Whether your valuation follows the methodology prescribed in your contract")
      ++ ("\n• Whether you have contemporaneous records supporting your valuation")
      ++ ("\n\nFor your specific variation issue, success probability decreases if:")
      ++ ("\n• The work could be interpreted as correction of defects or contractor-risk items")
      ++ ("\n• The person giving the instruction lacked authority to instruct variations")
     else
      ("\n\nBased on your specific contractual issue, the probability of successful resolution depends on:")
      ++ ("\n• The clarity of relevant contractual provisions that apply to your situation")
      ++ ("\n• Quality and completeness of contemporaneous records relevant to your issue")
      ++ ("\n• Compliance with contractual procedures and notification requirements")
      ++ ("\n• The commercial reasonableness of your position in this specific situation"))
  let assessment := assessment ++ ("\n\nCost-Benefit Analysis for Your Specific Issue:")
  let assessment := assessment ++ ("\n\nDirect Resolution Costs:")
  let assessment := assessment ++ ("\n• Management time: Time required for document review, correspondence, and meetings")
  let assessment := assessment ++ ("\n• Professional fees: Potential costs for specialist advice relevant to your specific issue")
  let assessment := assessment ++ ("\n• Dispute resolution costs: If formal processes are required for your specific issue")
  let assessment := assessment ++ ("\n\nQuantifiable Benefits:")
  let assessment := assessment ++
    (if jsIncludes issueKeywords ("payment") then
      ("\n• Direct recovery: The disputed payment amount in your specific situation")
      ++ ("\n• Interest: Statutory or contractual interest that applies to your situation")
     else if jsIncludes issueKeywords ("delay") then
      ("\n• Time relief: Avoidance of delay damages through extension of time for your specific delay")
      ++ (if jsIncludes issueKeywords ("loss") || jsIncludes issueKeywords ("expense") || jsIncludes issueKeywords ("compensation") then
           ("\n• Cost recovery: Potential recovery of prolongation costs for your specific delay")
          else String.mk [])
     else if jsIncludes issueKeywords ("variation") then
      ("\n• Direct payment: Recovery of costs for additional work, materials, and associated overheads")
      ++ (if jsIncludes issueKeywords ("time") || jsIncludes issueKeywords ("extension") || jsIncludes issueKeywords ("eot") then
           ("\n• Time relief: Potential extension of time associated with your specific variation")
          else String.mk [])
     else
      ("\n• Direct resolution: The quantifiable value of resolving your specific contractual issue")
      ++ ("\n• Risk mitigation: Avoided costs if your specific issue is successfully resolved"))
  let assessment := assessment ++ ("\n\nIntangible Factors:")
  let assessment := assessment ++ ("\n• Relationship impact: Effect on commercial relationships if pursuing your specific issue")
  let assessment := assessment ++ ("\n• Precedent effect: How resolution might affect other similar issues on this project")
  let assessment := assessment ++ ("\n• Team morale: Impact on project team effectiveness related to your specific issue")
  let assessment := assessment ++ ("\n\nRecommended Approach for Your Specific Issue:")
  let assessment := assessment ++
    (if jsIncludes issueKeywords ("payment") && (jsIncludes role ("Contractor") || jsIncludes role ("Sub-contractor")) then
      ("\n\nBased on risk-benefit analysis of your specific payment issue, a graduated approach is recommended:")
      ++ ("\n1. Initial robust correspondence citing specific statutory and contractual rights applicable to your situation")
      ++ ("\n2. Senior-level negotiation with clear commercial settlement parameters")
      ++ ("\n3. If unresolved within 14 days, consider adjudication while keeping settlement channels open")
     else if jsIncludes issueKeywords ("delay") then
      ("\n\nBased on risk-benefit analysis of your specific delay issue, a measured approach is recommended:")
      ++ ("\n1. Submit detailed extension of time application with comprehensive impact analysis")
      ++ ("\n2. Focus primary efforts on securing time relief for your specific delay")
      ++ ("\n3. Consider separate loss and expense claim if your delay is compensable")
      ++ ("\n4. Reserve formal dispute rights while pursuing negotiated resolution")
     else if jsIncludes issueKeywords ("variation") then
      ("\n\nBased on risk-benefit analysis of your specific variation issue, a pragmatic approach is recommended:")
      ++ ("\n1. Compile all evidence supporting the instruction and valuation of your specific variation")
      ++ ("\n2. Seek agreement on the principle of the variation before detailed valuation discussions")
      ++ ("\n3. Prepare detailed valuation following the methodology in your contract")
      ++ ("\n4. Consider whether staged resolution might be appropriate for your situation")
     else
      ("\n\nBased on risk-benefit analysis of your specific issue, a balanced approach is recommended:")
      ++ ("\n1. Detailed analysis of contractual provisions directly relevant to your issue")
      ++ ("\n2. Clear written position statement with specific settlement proposal")
      ++ ("\n3. Structured negotiation with defined escalation timeline")
      ++ ("\n4. Consider mediation if direct negotiation stalls")
      ++ ("\n5. Prepare for formal dispute resolution as contingency while pursuing settlement"))
  assessment

/-- generateRelevantClauses of the app context's template renderer: the
fixed clause catalog keyed by contract-type family and the first matching
issue-keyword category, with a generic clause-name list for unrecognized
contract types. -/
def generateRelevantClauses (contractType issueDescription : String) : List String :=
  let issueKeywords := jsToLowerCase issueDescription
  if jsIncludes contractType ("JCT") then
    if jsIncludes issueKeywords ("payment") then
      ["Clause 4.8", "Clause 4.9", "Clause 4.10", "Clause 4.11", "Clause 4.12", "Clause 4.13"]
    else if jsIncludes issueKeywords ("delay") then
      ["Clause 2.26", "Clause 2.27", "Clause 2.28", "Clause 2.29", "Clause 2.25"]
    else if jsIncludes issueKeywords ("variation") then
      ["Clause 3.14", "Clause 3.15", "Clause 3.16", "Clause 5.6", "Clause 5.7"]
    else if jsIncludes issueKeywords ("defect") || jsIncludes issueKeywords ("quality") then
      ["Clause 2.38", "Clause 2.39", "Clause 2.40", "Clause 3.18"]
    else if jsIncludes issueKeywords ("design") then
      ["Clause 2.1", "Clause 2.2", "Clause 2.17", "Clause 3.21"]
    else ["Clause 1.7", "Clause 2.1", "Clause 8.4", "Clause 8.9"]
  else if jsIncludes contractType ("NEC") then
    if jsIncludes issueKeywords ("payment") then
      ["Clause 50.1", "Clause 50.2", "Clause 50.3", "Clause 51.1", "Clause 51.2"]
    else if jsIncludes issueKeywords ("delay") then
      ["Clause 60.1", "Clause 61.3", "Clause 62.2", "Clause 63.3", "Clause 63.5"]
    else if jsIncludes issueKeywords ("variation") then
      ["Clause 60.1(1)", "Clause 60.1(4)", "Clause 61.2", "Clause 63.1", "Clause 63.7"]
    else if jsIncludes issueKeywords ("defect") || jsIncludes issueKeywords ("quality") then
      ["Clause 40.1", "Clause 42.1", "Clause 43.1", "Clause 44.1", "Clause 45.1"]
    else if jsIncludes issueKeywords ("design") then
      ["Clause 21.1", "Clause 21.2", "Clause 27.1", "Option X15 (if applicable)"]
    else ["Clause 10.1", "Clause 15.1", "Clause 91.1", "Clause 93.1"]
  else if jsIncludes contractType ("FIDIC") then
    if jsIncludes issueKeywords ("payment") then
      ["Clause 14.3", "Clause 14.6", "Clause 14.7", "Clause 14.8", "Clause 14.9"]
    else if jsIncludes issueKeywords ("delay") then
      ["Clause 8.4", "Clause 8.5", "Clause 20.1", "Clause 3.5", "Clause 4.24"]
    else if jsIncludes issueKeywords ("variation") then
      ["Clause 13.1", "Clause 13.2", "Clause 13.3", "Clause 12.3", "Clause 12.4"]
    else if jsIncludes issueKeywords ("defect") || jsIncludes issueKeywords ("quality") then
      ["Clause 7.5", "Clause 7.6", "Clause 9.1", "Clause 11.1", "Clause 11.2"]
    else if jsIncludes issueKeywords ("design") then
      ["Clause 4.1", "Clause 5.1", "Clause 5.2", "Clause 5.8", "Clause 4.11"]
    else ["Clause 1.9", "Clause 3.5", "Clause 4.1", "Clause 20.1"]
  else
    ["General Contract Provisions", "Specific Terms of Agreement", "Implied Terms",
     "Variation and Change Provisions", "Payment Terms"]

/-- generateRecommendations of the app context's template renderer:
recommendation lists keyed by the first matching issue-keyword category
and the role family, with keyword-conditioned extra entries. -/
def generateRecommendations (contractType role issueDescription : String) : List String :=
  let issueKeywords := jsToLowerCase issueDescription
  if jsIncludes issueKeywords ("payment") then
    if jsIncludes role ("Contractor") || jsIncludes role ("Sub-contractor") then
      [("For your specific payment issue, submit a formal payment notice in accordance with your contract terms, ensuring compliance with all requirements."),
       ("Compile comprehensive payment documentation specific to your disputed amount, including detailed measurements, valuations, and records."),
       ("Request a formal meeting with the contract administrator/quantity surveyor to discuss your specific payment discrepancy with supporting documentation.")]
      ++ (if jsIncludes issueKeywords ("late") || jsIncludes issueKeywords ("overdue") then
           [("For your specific late payment issue, consider issuing a formal notice of intention to suspend performance if payment remains outstanding, following the specific requirements in your contract."),
            ("Calculate and claim interest on your specific late payment under the contract terms or the Late Payment of Commercial Debts (Interest) Act 1998.")]
          else [])
    else if jsIncludes role ("Client") || jsIncludes role ("Employer") then
      [("For your specific payment issue, review the application and certification procedures to ensure strict compliance with contractual and statutory requirements."),
       ("Ensure Payment Notices and Pay Less Notices relevant to your disputed payment are issued within the required timeframes and contain the specified information."),
       ("Maintain detailed records of any defects or non-compliant work that form the basis of your payment withholding in this specific case.")]
      ++ (if jsIncludes issueKeywords ("dispute") || jsIncludes issueKeywords ("disagree") then
           [("For your specific payment dispute, document any set-off or abatement claims with precise calculations and supporting evidence.")]
          else [])
    else
      [("For your specific payment issue, ensure all processes and certifications comply with both contractual and statutory requirements."),
       ("Maintain detailed records of all payment-related communications, notices, and certifications relevant to this specific issue."),
       ("Advise relevant parties of their specific rights and obligations under the contract and Construction Act that apply to this payment issue.")]
  else if jsIncludes issueKeywords ("delay") then
    if jsIncludes role ("Contractor") || jsIncludes role ("Sub-contractor") then
      [("For your specific delay issue, document all causes with contemporaneous records, including site diaries, progress reports, photographs, and correspondence."),
       ("Submit extension of time notification for your specific delay strictly in accordance with your contractual timeframes and requirements."),
       ("Prepare a detailed delay analysis for your specific situation using an appropriate methodology with supporting critical path network diagrams."),
       ("Implement and document specific mitigation measures for your delay where reasonably practicable.")]
      ++ (if jsIncludes issueKeywords ("loss") || jsIncludes issueKeywords ("expense") || jsIncludes issueKeywords ("cost") then
           [("For your specific compensable delay, prepare separate loss and expense submission with detailed quantum evidence specific to your situation.")]
          else [])
    else if jsIncludes role ("Client") || jsIncludes role ("Employer") then
      [("For your specific delay issue, review the extension of time provisions in your contract to confirm entitlement criteria and assessment methodology."),
       ("Assess extension of time claims related to your specific delay objectively and within contractual timeframes."),
       ("Maintain contemporaneous records of project progress, contractor performance, and any employer-caused delays relevant to this specific issue.")]
      ++ (if jsIncludes issueKeywords ("liquidated") || jsIncludes issueKeywords ("damages") then
           [("For your specific delay issue, ensure liquidated damages provisions have been properly operated, including any required notices or certificates.")]
          else [])
    else if jsIncludes role ("Contract Administrator") || jsIncludes role ("Engineer") then
      [("For your specific delay issue, assess extension of time claims impartially in accordance with your contract, applying the specified methodology."),
       ("Issue determinations for your specific delay issue within contractual timeframes, providing clear reasons for your decision."),
       ("Maintain detailed records of your assessment process for this specific delay issue, including programmes reviewed and evidence considered.")]
    else
      [("For your specific delay issue, document all relevant events with specific dates, duration, and impact on planned activities."),
       ("Submit detailed extension of time requests for your specific delay with supporting evidence and critical path analysis."),
       ("Implement and document specific mitigation measures to minimize the impact of your delay.")]
  else if jsIncludes issueKeywords ("variation") then
    if jsIncludes role ("Contractor") || jsIncludes role ("Sub-contractor") then
      (if jsIncludes issueKeywords ("instruct") || jsIncludes issueKeywords ("authoriz") || jsIncludes issueKeywords ("authoris") then
        [("For your specific variation issue, ensure it is properly instructed in writing by an authorized person before proceeding with the varied work.")]
       else [])
      ++ [("Submit detailed variation quotation for your specific change, including direct costs, time implications, and any impact on existing works."),
          ("Maintain specific records for your variation separate from general project records, including labor allocation, material usage, and photographs.")]
      ++ (if jsIncludes issueKeywords ("delay") || jsIncludes issueKeywords ("extension") || jsIncludes issueKeywords ("time") then
           [("Notify promptly if your specific variation is likely to cause delay to completion or impact critical path activities.")]
          else [])
    else if jsIncludes role ("Client") || jsIncludes role ("Employer") then
      [("For your specific variation issue, ensure instructions are issued only by authorized persons following contractual procedures."),
       ("Request detailed quotation for your proposed variation before instruction where time permits, establishing cost and time implications upfront."),
       ("Maintain comprehensive documentation of your specific variation, including scope, authorization, agreed value, and time impact.")]
    else if jsIncludes role ("Contract Administrator") || jsIncludes role ("Engineer") then
      [("For your specific variation issue, issue instructions clearly in writing, specifying exactly what is being changed."),
       ("Ensure your specific variation is properly valued according to the contractual hierarchy of valuation methods."),
       ("Assess time implications of your specific variation objectively, particularly if it affects critical path activities."),
       ("Maintain detailed records of your specific variation, including the instruction process, agreed scope, and valuation.")]
    else
      [("For your specific variation issue, verify that it is properly documented and authorized according to contract requirements."),
       ("Establish a robust tracking system for your variation to monitor status, valuation, and impact."),
       ("Ensure variation instructions provide clear scope definition and necessary technical details specific to your change.")]
  else if jsIncludes issueKeywords ("defect") || jsIncludes issueKeywords ("quality") then
    if jsIncludes role ("Contractor") || jsIncludes role ("Sub-contractor") then
      [("For your specific quality/defect issue, implement appropriate quality control procedures specific to the area of concern."),
       ("Document any instructions or specifications that may have contributed to your specific alleged defect."),
       ("Respond promptly to notifications regarding your specific defect, investigating thoroughly and proposing appropriate remedial methodology.")]
      ++ (if jsIncludes issueKeywords ("rectif") || jsIncludes issueKeywords ("remed") || jsIncludes issueKeywords ("repair") then
           [("For your specific defect, provide a detailed method statement and programme for remedial works, minimizing disruption.")]
          else [])
    else if jsIncludes role ("Client") || jsIncludes role ("Employer") then
      [("Document your specific defect thoroughly with photographs, measurements, and specific reference to contract requirements."),
       ("Issue formal defect notification for your specific issue in accordance with contractual procedures."),
       ("Allow reasonable access for inspection and remediation of your specific defect, cooperating with contractor\x27s proposed methodology where appropriate.")]
    else
      [("For your specific quality/defect issue, inspect work against specification requirements and industry standards, documenting any non-compliance."),
       ("Issue clear instructions regarding your specific defective work, specifying the nature of the defect and required remediation."),
       ("Maintain detailed records of all quality-related communications, inspections, and identified defects specific to your issue.")]
  else if jsIncludes issueKeywords ("design") then
    if jsIncludes role ("Contractor") && (jsIncludes contractType ("Design and Build") || jsIncludes issueKeywords ("contractor design")) then
      [("For your specific design issue, review the specific design obligations in your contract, particularly the standard of care required."),
       ("Document any design approvals or acceptances by the employer that are relevant to your specific design issue."),
       ("Ensure professional indemnity insurance adequately covers your specific design liability and notify insurers if appropriate.")]
    else if jsIncludes role ("Client") || jsIncludes role ("Employer") then
      [("For your specific design issue, review the design responsibility allocation in your contract documents."),
       ("Document your specific design deficiencies with reference to employer\x27s requirements, performance specifications, or objective industry standards.")]
      ++ (if jsIncludes issueKeywords ("approval") || jsIncludes issueKeywords ("review") then
           [("Consider whether any design approval process operated under your contract affects design liability allocation for this specific issue.")]
          else [])
    else if jsIncludes role ("Architect") || jsIncludes role ("Engineer") then
      [("For your specific design issue, review your appointment terms regarding design liability, particularly the standard of care."),
       ("Maintain comprehensive records of design development, decisions, and calculations relevant to your specific design issue.")]
      ++ (if jsIncludes issueKeywords ("coordination") then
           [("For your specific design coordination issue, ensure proper coordination between different design disciplines, documenting the process.")]
          else [])
    else
      [("For your specific design issue, clarify design responsibility allocation between all relevant parties."),
       ("Document design development process and key decisions relevant to your specific issue with supporting rationale."),
       ("Implement structured design review and approval procedures with clear records for your specific design elements.")]
  else
    [("For your specific contractual issue, review all relevant contract documents thoroughly to identify provisions directly applicable to your situation."),
     ("Compile a comprehensive chronology of events related to your specific issue with supporting documentation."),
     ("Document your interpretation of the relevant contract clauses that apply specifically to your situation."),
     ("Seek early resolution of your specific issue through direct commercial discussion, considering the relationship value."),
     ("Consider whether independent expert opinion on technical aspects of your specific issue might facilitate resolution.")]

/-- getDraftRecipient of the app context and of the letter-generation
endpoint (both copies are identical): the fixed role-to-recipient
lookup by substring tests in source order. -/
def getDraftRecipient (role : String) : String :=
  if jsIncludes role ("Client") || jsIncludes role ("Employer") then ("The Contractor")
  else if jsIncludes role ("Contractor") then ("The Employer/Client")
  else if jsIncludes role ("Sub-contractor") then ("The Main Contractor")
  else if jsIncludes role ("Contract Administrator") || jsIncludes role ("Architect") then ("The Relevant Party")
  else ("The Contract Administrator")

/-- One contractual issue of a project (data model of the app context). -/
structure Issue where
  description : String
  actionsTaken : String
deriving DecidableEq

/-- Project details as assembled by the form (data model of the app
context). -/
structure ProjectDetails where
  projectName : String
  projectDescription : String
  contractType : String
  organizationRole : String
  issues : List Issue
deriving DecidableEq

/-- The per-issue analysis record produced by both generation paths. -/
structure Analysis where
  issue : String
  actionsTaken : String
  detailedAnalysis : String
  legalContext : String
  relevantClauses : List String
  clauseExplanations : List String
  recommendations : List String
  potentialOutcomes : String
  timelineSuggestions : String
  riskAssessment : String
deriving DecidableEq

/-- A generated report: a snapshot of the project details plus one
analysis per issue. -/
structure Report where
  id : String
  date : String
  projectDetails : ProjectDetails
  analysis : List Analysis
deriving DecidableEq

/-- The analysis record the app context's generateReport builds for one
issue on the deterministic template path. -/
def mkTemplateAnalysis (issue : Issue) (pd : ProjectDetails) : Analysis :=
  let relevantClauses := generateRelevantClauses pd.contractType issue.description
  let recommendations := generateRecommendations pd.contractType pd.organizationRole issue.description
  { issue := issue.description
  , actionsTaken := issue.actionsTaken
  , detailedAnalysis := generateDetailedAnalysis issue.description pd.contractType pd.organizationRole
  , legalContext := generateLegalContext pd.contractType issue.description
  , relevantClauses := relevantClauses
  , clauseExplanations := generateClauseExplanations relevantClauses pd.contractType
  , recommendations := recommendations
  , potentialOutcomes := generatePotentialOutcomes issue.description pd.contractType pd.organizationRole
  , timelineSuggestions := generateTimelineSuggestions issue.description
  , riskAssessment := generateRiskAssessment issue.description pd.contractType pd.organizationRole }

/-- generateReport of the app context (deterministic template path): a
report whose analysis array is the issues array mapped through the
per-issue template renderer.  The impure id and date of the source
(Date.now, new Date) are explicit parameters. -/
def generateReport (id date : String) (pd : ProjectDetails) : Report :=
  { id := id
  , date := date
  , projectDetails := pd
  , analysis := pd.issues.map (fun issue => mkTemplateAnalysis issue pd) }

/-- The analysis record the GPT-response parser builds for one issue from
the slice of the response belonging to that issue: extracted sections,
with the fallback clause catalog substituted when no clause items were
extracted and a single default recommendation substituted when no
recommendations were extracted. -/
def mkGptAnalysis (responseForIssue : String) (issue : Issue) (pd : ProjectDetails) : Analysis :=
  let relevantClauses := extractListItems responseForIssue ("Relevant Contract Clauses")
  let recommendations := extractListItems responseForIssue ("Recommendations")
  { issue := issue.description
  , actionsTaken := issue.actionsTaken
  , detailedAnalysis := extractSection responseForIssue ("Detailed Analysis") true
  , legalContext := extractSection responseForIssue ("Legal Context") true
  , relevantClauses :=
      if 0 < relevantClauses.length then relevantClauses
      else generateFallbackClauses pd.contractType issue.description
  , clauseExplanations := extractListItems responseForIssue ("Clause Explanations")
  , recommendations :=
      if 0 < recommendations.length then recommendations
      else [("Seek professional legal advice specific to your contract situation.")]
  , potentialOutcomes := extractSection responseForIssue ("Potential Outcomes") true
  , timelineSuggestions := extractSection responseForIssue ("Timeline Suggestions") true
  , riskAssessment := extractSection responseForIssue ("Risk Assessment") true }

/-- The forEach loop of parseGptReportResponse: one analysis per issue in
order, skipping (early return) any issue whose index is beyond the number
of response slices. -/
def parseLoop (pd : ProjectDetails) (resps : List String) : List Issue → Nat → List Analysis
  | [], _ => []
  | issue :: rest, idx =>
    if idx < resps.length then
      mkGptAnalysis (resps.getD idx (String.mk [])) issue pd :: parseLoop pd resps rest (idx + 1)
    else parseLoop pd resps rest (idx + 1)

/-- parseGptReportResponse of the report-generation endpoint: split the
response into per-issue slices when there are several issues, then build
one analysis per issue. -/
def parseGptReportResponse (responseText : String) (pd : ProjectDetails) : List Analysis :=
  let issueResponses :=
    if 1 < pd.issues.length then splitResponseByIssues responseText pd.issues.length
    else [responseText]
  parseLoop pd issueResponses pd.issues 0

/-- A row of the reports table (id, owner, timestamp and the two report
payloads, stored verbatim). -/
structure ReportRow where
  id : String
  userId : String
  date : String
  projectDetails : ProjectDetails
  analysis : List Analysis
deriving DecidableEq

/-- Outcome of the save-report endpoint, after authentication: the 400
response for missing report data, the 403 response for an ownership
violation, or the 200 success response carrying the report id. -/
inductive SaveOutcome
  | badRequest
  | forbidden
  | ok (id : String)
deriving DecidableEq

/-- The authenticated core of the saveReport API handler: reject invalid
report data (a missing/empty id is falsy in the source's check); otherwise
look up the first stored row with the report's id — if one exists and
belongs to another user answer 403 leaving the table unchanged, if it
belongs to the caller overwrite its payload in place, and if no row has
the id append a new row owned by the caller. -/
def saveReportHandler (db : List ReportRow) (userId : String) (report : Report) :
    SaveOutcome × List ReportRow :=
  if report.id = ("") then (SaveOutcome.badRequest, db)
  else
    match db.filter (fun r => r.id == report.id) with
    | row :: _ =>
      if row.userId != userId then (SaveOutcome.forbidden, db)
      else
        (SaveOutcome.ok report.id,
         db.map (fun r =>
           if r.id == report.id then
             { r with date := report.date
                    , projectDetails := report.projectDetails
                    , analysis := report.analysis }
           else r))
    | [] =>
      (SaveOutcome.ok report.id,
       db ++ [{ id := report.id, userId := userId, date := report.date
              , projectDetails := report.projectDetails
              , analysis := report.analysis }])

/-- Outcome of the delete-report endpoint, after authentication: the 400
response for a missing report id, or the 200 success response.  The source
has no 403 path: the delete statement filters by id and owner, so a
non-owned id deletes zero rows and still answers 200. -/
inductive DeleteOutcome
  | badRequest
  | success
deriving DecidableEq

/-- The authenticated core of the deleteReport API handler: reject a
missing/empty report id, otherwise delete the rows matching both the id
and the caller and answer success unconditionally. -/
def deleteReportHandler (db : List ReportRow) (userId reportId : String) :
    DeleteOutcome × List ReportRow :=
  if reportId = ("") then (DeleteOutcome.badRequest, db)
  else
    (DeleteOutcome.success,
     db.filter (fun r => !(r.id == reportId && r.userId == userId)))

/-! Helper lemmas. -/

theorem length_of_splitResponseByIssues (text : String) (n : Nat) :
    (splitResponseByIssues text n).length =
      if n ≤ (scanMarkers text.data).length then (scanMarkers text.data).length else n := by
  unfold splitResponseByIssues
  by_cases h : n ≤ (scanMarkers text.data).length
  · simp only [h, if_true, List.length_map, List.length_zip, List.length_append,
      List.length_drop]
    simp only [List.length_cons, List.length_nil, inf_eq_min]
    omega
  · simp only [h, if_false, List.length_map, List.length_range]

theorem generateFallbackClauses_ne_nil (contractType issueDescription : String) :
    generateFallbackClauses contractType issueDescription ≠ [] := by
  simp only [generateFallbackClauses]
  repeat' split
  all_goals simp

theorem parseLoop_getq (pd : ProjectDetails) (resps : List String) :
    ∀ (issues : List Issue) (idx : Nat), idx + issues.length ≤ resps.length →
      ∀ (k : Nat),
        (parseLoop pd resps issues idx)[k]? =
          (issues[k]?).map
            (fun issue => mkGptAnalysis (resps.getD (idx + k) (String.mk [])) issue pd) := by
  intro issues
  induction issues with
  | nil => intro idx _ k; simp [parseLoop]
  | cons issue rest ih =>
    intro idx hle k
    have hlt : idx < resps.length := by simp at hle; omega
    have htail := ih (idx + 1) (by simp at hle ⊢; omega)
    match k with
    | 0 => simp [parseLoop, hlt]
    | k + 1 =>
      simp only [parseLoop, hlt, if_true, List.getElem?_cons_succ]
      rw [htail k]
      have : idx + 1 + k = idx + (k + 1) := by omega
      rw [this]

theorem parseLoop_length (pd : ProjectDetails) (resps : List String)
    (issues : List Issue) (idx : Nat) (hle : idx + issues.length ≤ resps.length) :
    (parseLoop pd resps issues idx).length = issues.length := by
  have h1 := parseLoop_getq pd resps issues idx hle issues.length
  have h2 : issues[issues.length]? = none := by simp
  rw [h2] at h1
  simp at h1
  rcases Nat.lt_or_ge (parseLoop pd resps issues idx).length issues.length with hlt | hge2
  · exfalso
    have h3 := parseLoop_getq pd resps issues idx hle (parseLoop pd resps issues idx).length
    rw [List.getElem?_eq_none (Nat.le_refl _), List.getElem?_eq_getElem hlt] at h3
    simp at h3
  · omega

theorem issues_le_responses (text : String) (pd : ProjectDetails) :
    pd.issues.length ≤
      (if 1 < pd.issues.length then splitResponseByIssues text pd.issues.length
       else [text]).length := by
  by_cases h : 1 < pd.issues.length
  · simp only [h, if_true, length_of_splitResponseByIssues]
    split <;> omega
  · simp only [h, if_false, List.length_singleton]
    omega

theorem dropWhile_head_not {α} (p : α → Bool) :
    ∀ (l : List α) (c : α) (t : List α), l.dropWhile p = c :: t → p c = false := by
  intro l
  induction l with
  | nil => intro c t h; simp [List.dropWhile] at h
  | cons a as ih =>
    intro c t h
    by_cases hp : p a
    · rw [List.dropWhile_cons_of_pos hp] at h
      exact ih c t h
    · rw [List.dropWhile_cons_of_neg hp] at h
      cases h
      simpa using hp

theorem dropWhile_append_last {α} (p : α → Bool) (c : α) (h : p c = false) :
    ∀ (xs : List α), List.dropWhile p (xs ++ [c]) = List.dropWhile p xs ++ [c] := by
  intro xs
  induction xs with
  | nil => simp [List.dropWhile, h]
  | cons a as ih =>
    by_cases hp : p a
    · simpa [List.dropWhile_cons_of_pos hp] using ih
    · simp [List.dropWhile_cons_of_neg hp]

theorem trimStr_cons_of_not_ws (c : Char) (l : List Char) (h : charIsWs c = false) :
    ∃ t, trimStr (c :: l) = c :: t := by
  unfold trimStr
  rw [List.dropWhile_cons_of_neg (by simp [h])]
  rw [List.reverse_cons, dropWhile_append_last charIsWs c h, List.reverse_append]
  exact ⟨_, rfl⟩

theorem lookaheadOk_cons_not_ws (c : Char) (r : List Char) (h : charIsWs c = false) :
    lookaheadOk (c :: r) = false := by
  have hnl : (c == '\n') = false := by
    cases hb : c == '\n'
    · rfl
    · exfalso
      have : c = '\n' := by simpa using hb
      subst this
      simp [charIsWs] at h
  simp [lookaheadOk, headingOneAt, headingTwoAt, nlWsEndAt, hnl]

theorem lazyStop_cons_not_ws (c : Char) (r : List Char) (h : charIsWs c = false) :
    lazyStop (c :: r) = lazyStop r + 1 := by
  simp [lazyStop, lookaheadOk_cons_not_ws c r h]

theorem firstFragEnd_cons_not_ws (c : Char) (r : List Char) (h : charIsWs c = false) :
    firstFragEnd (c :: r) = firstFragEnd r + 1 := by
  have hnl : (c == '\n') = false := by
    cases hb : c == '\n'
    · rfl
    · exfalso
      have : c = '\n' := by simpa using hb
      subst this
      simp [charIsWs] at h
  simp [firstFragEnd, dblNlAt, hnl]

theorem afterOptColon_head_not_ws (l : List Char) (c : Char) (r : List Char)
    (hl : ∃ src : List Char, l = src.dropWhile charIsWs) (h : afterOptColon l = c :: r) :
    charIsWs c = false := by
  rcases hl with ⟨src, hsrc⟩
  cases l with
  | nil => simp [afterOptColon] at h
  | cons d t =>
    by_cases hd : d == ':'
    · simp only [afterOptColon, hd, if_true] at h
      exact dropWhile_head_not charIsWs t c r h
    · have hdws : charIsWs d = false := dropWhile_head_not charIsWs src d t hsrc.symm
      simp only [afterOptColon, hd, Bool.false_eq_true, if_false] at h
      injection h with h1 h2
      rw [← h1]
      exact hdws

/-- Claim C2 counterexample: splitResponseByIssues does not always return
exactly issueCount elements.  On a text containing three issue-boundary
markers with issueCount 2, the marker branch pushes one slice per marker
and returns three elements, not two. -/
theorem claim2_counterexample :
    ¬ ((splitResponseByIssues ("Issue 1: a Issue 2: b Issue 3: c") 2).length = 2) := by
  decide

/-- Claim C2 (amended): for every text and issueCount at least 1, the
splitter never throws (it is a total function) and returns exactly
issueCount elements when fewer than issueCount boundary markers occur (the
even-slicing fallback); when at least issueCount markers occur it returns
one slice per marker, which is at least issueCount elements but exceeds
issueCount whenever more markers than issues are present. -/
theorem claim2_amended_split_length :
    ∀ (text : String) (issueCount : Nat), 1 ≤ issueCount →
      (splitResponseByIssues text issueCount).length =
          (if issueCount ≤ (scanMarkers text.data).length
           then (scanMarkers text.data).length else issueCount)
        ∧ issueCount ≤ (splitResponseByIssues text issueCount).length := by
  intro text n _
  refine ⟨length_of_splitResponseByIssues text n, ?_⟩
  rw [length_of_splitResponseByIssues]
  split <;> omega

/-- Witness for claim C2's amended theorem at a concrete input. -/
theorem claim2_witness :
    2 ≤ (splitResponseByIssues ("Issue 1: a Issue 2: b Issue 3: c") 2).length :=
  (claim2_amended_split_length ("Issue 1: a Issue 2: b Issue 3: c") 2 (by decide)).2

/-- Claim C6 counterexample: a delete request by bob targeting a report
owned by alice is not rejected with a 403-equivalent error — the handler's
outcome type has no such case at all — but answers success while deleting
zero rows, leaving the report stored. -/
theorem claim6_counterexample :
    deleteReportHandler
        [(⟨"r1", "alice", "2024", ⟨"", "", "", "", []⟩, []⟩ : ReportRow)] ("bob") ("r1")
      = (DeleteOutcome.success,
         [(⟨"r1", "alice", "2024", ⟨"", "", "", "", []⟩, []⟩ : ReportRow)]) := by
  decide

/-- Claim C6 (amended): a delete request whose target id matches no report
owned by the caller returns silent success (200) with the stored reports
unchanged — in particular a non-owned targeted report remains stored; the
operation is not rejected with a 403-equivalent error. -/
theorem claim6_amended_delete_silent :
    ∀ (db : List ReportRow) (userId reportId : String), reportId ≠ "" →
      (∀ r ∈ db, r.id = reportId → r.userId ≠ userId) →
      deleteReportHandler db userId reportId = (DeleteOutcome.success, db) := by
  intro db uid rid hne hown
  unfold deleteReportHandler
  rw [if_neg hne]
  have hfix : db.filter (fun r => !(r.id == rid && r.userId == uid)) = db := by
    rw [List.filter_eq_self]
    intro r hr
    by_cases hid : r.id = rid
    · have hoid := hown r hr hid
      simp [hid, hoid]
    · simp [hid]
  rw [hfix]

/-- Witness for claim C6's amended theorem at a concrete input. -/
theorem claim6_witness :
    deleteReportHandler
        [(⟨"r2", "carol", "2024", ⟨"", "", "", "", []⟩, []⟩ : ReportRow)] ("dave") ("r2")
      = (DeleteOutcome.success,
         [(⟨"r2", "carol", "2024", ⟨"", "", "", "", []⟩, []⟩ : ReportRow)]) :=
  claim6_amended_delete_silent _ ("dave") ("r2") (by decide) (by decide)

/-- Claim C8: getDraftRecipient maps roles by the fixed cascade — Client
or Employer to The Contractor; otherwise Contractor to The
Employer/Client; otherwise Sub-contractor to The Main Contractor;
otherwise Contract Administrator or Architect to The Relevant Party; every
other role to The Contract Administrator — and in particular Main
Contractor to The Employer/Client, Client/Employer to The Contractor, and
an unrecognized role to The Contract Administrator. -/
theorem claim8_recipient_mapping :
    (∀ role : String,
        (jsIncludes role ("Client") = true ∨ jsIncludes role ("Employer") = true) →
        getDraftRecipient role = "The Contractor")
    ∧ (∀ role : String, jsIncludes role ("Client") = false →
        jsIncludes role ("Employer") = false → jsIncludes role ("Contractor") = true →
        getDraftRecipient role = "The Employer/Client")
    ∧ (∀ role : String, jsIncludes role ("Client") = false →
        jsIncludes role ("Employer") = false → jsIncludes role ("Contractor") = false →
        jsIncludes role ("Sub-contractor") = true →
        getDraftRecipient role = "The Main Contractor")
    ∧ (∀ role : String, jsIncludes role ("Client") = false →
        jsIncludes role ("Employer") = false → jsIncludes role ("Contractor") = false →
        jsIncludes role ("Sub-contractor") = false →
        (jsIncludes role ("Contract Administrator") = true ∨ jsIncludes role ("Architect") = true) →
        getDraftRecipient role = "The Relevant Party")
    ∧ (∀ role : String, jsIncludes role ("Client") = false →
        jsIncludes role ("Employer") = false → jsIncludes role ("Contractor") = false →
        jsIncludes role ("Sub-contractor") = false →
        jsIncludes role ("Contract Administrator") = false →
        jsIncludes role ("Architect") = false →
        getDraftRecipient role = "The Contract Administrator")
    ∧ getDraftRecipient ("Main Contractor") = "The Employer/Client"
    ∧ getDraftRecipient ("Client/Employer") = "The Contractor"
    ∧ getDraftRecipient ("Quantity Surveyor") = "The Contract Administrator" := by
  refine ⟨?_, ?_, ?_, ?_, ?_, by decide, by decide, by decide⟩
  · intro role h
    rcases h with h | h <;> simp [getDraftRecipient, h]
  · intro role h1 h2 h3
    simp [getDraftRecipient, h1, h2, h3]
  · intro role h1 h2 h3 h4
    simp [getDraftRecipient, h1, h2, h3, h4]
  · intro role h1 h2 h3 h4 h
    rcases h with h | h <;> simp [getDraftRecipient, h1, h2, h3, h4, h]
  · intro role h1 h2 h3 h4 h5 h6
    simp [getDraftRecipient, h1, h2, h3, h4, h5, h6]

/-- Witness for claim C8's theorem at concrete roles. -/
theorem claim8_witness :
    getDraftRecipient ("Employer Representative") = "The Contractor"
      ∧ getDraftRecipient ("Sub-contractor") = "The Main Contractor" :=
  ⟨claim8_recipient_mapping.1 ("Employer Representative") (Or.inr (by decide)),
   claim8_recipient_mapping.2.2.1 ("Sub-contractor")
     (by decide) (by decide) (by decide) (by decide)⟩

/-- Claim C9: the deterministic template renderer is a pure function of
its three inputs — two runs of generateDetailedAnalysis,
generateRiskAssessment, or of the whole per-issue template analysis on
identical inputs produce byte-identical output.  The embedding makes this
structural: the renderers take no source of randomness or time (the
source's only impure values, Date.now and Math.random, occur outside these
functions and enter the model as explicit parameters). -/
theorem claim9_renderer_deterministic :
    ∀ (issueDescription contractType role : String) (issue : Issue) (pd : ProjectDetails),
      generateDetailedAnalysis issueDescription contractType role
          = generateDetailedAnalysis issueDescription contractType role
        ∧ generateRiskAssessment issueDescription contractType role
          = generateRiskAssessment issueDescription contractType role
        ∧ mkTemplateAnalysis issue pd = mkTemplateAnalysis issue pd :=
  fun _ _ _ _ _ => ⟨rfl, rfl, rfl⟩

theorem restAfterLabel_head_not_ws (name text : List Char) (b : Bool) (c : Char)
    (r : List Char) (h : restAfterLabel name text b = some (c :: r)) :
    charIsWs c = false := by
  unfold restAfterLabel at h
  cases hfind : findSub name text with
  | none => rw [hfind] at h; simp at h
  | some p =>
    rw [hfind] at h
    simp only [Option.map_some] at h
    have h' := Option.some.inj h
    by_cases hb : b
    · subst hb
      simp only [if_true] at h'
      exact afterOptColon_head_not_ws _ c r ⟨_, rfl⟩ h'
    · simp only [hb, if_false] at h'
      exact dropWhile_head_not charIsWs _ c r h'

/-- Claim C7: keyword classification is first-match-wins in the fixed
source order, with payment tested before delay — a JCT-family description
containing both payment and delay keywords always selects the JCT payment
clause list — and on the concrete end-to-end scenario (JCT Standard
Building Contract, Main Contractor, a payment-certification issue) the
relevant clauses contain Clause 4.8 and the recommendations are
non-empty. -/
theorem claim7_keyword_priority :
    (∀ (contractType issueDescription : String),
        jsIncludes contractType ("JCT") = true →
        jsIncludes (jsToLowerCase issueDescription) ("payment") = true →
        jsIncludes (jsToLowerCase issueDescription) ("delay") = true →
        generateRelevantClauses contractType issueDescription
          = ["Clause 4.8", "Clause 4.9", "Clause 4.10", "Clause 4.11",
             "Clause 4.12", "Clause 4.13"])
    ∧ (generateRelevantClauses ("JCT Standard Building Contract")
          ("Payment has not been certified on time")).contains ("Clause 4.8") = true
    ∧ generateRecommendations ("JCT Standard Building Contract") ("Main Contractor")
        ("Payment has not been certified on time") ≠ [] := by
  refine ⟨?_, by decide, by decide⟩
  intro ct d h1 h2 _
  simp only [generateRelevantClauses]
  simp [h1, h2]

/-- Witness for claim C7's universal part at a concrete input containing
both keywords. -/
theorem claim7_witness :
    generateRelevantClauses ("JCT Minor Works") ("payment and delay problems")
      = ["Clause 4.8", "Clause 4.9", "Clause 4.10", "Clause 4.11",
         "Clause 4.12", "Clause 4.13"] :=
  claim7_keyword_priority.1 ("JCT Minor Works") ("payment and delay problems")
    (by decide) (by decide) (by decide)

theorem mkGptAnalysis_nonempty_fields (r : String) (issue : Issue) (pd : ProjectDetails) :
    (mkGptAnalysis r issue pd).relevantClauses ≠ []
      ∧ (mkGptAnalysis r issue pd).recommendations ≠ [] := by
  simp only [mkGptAnalysis]
  constructor
  · split
    · next h => exact List.length_pos.mp h
    · exact generateFallbackClauses_ne_nil pd.contractType issue.description
  · split
    · next h => exact List.length_pos.mp h
    · simp

theorem mem_parseLoop (pd : ProjectDetails) (resps : List String) :
    ∀ (issues : List Issue) (idx : Nat) (a : Analysis),
      a ∈ parseLoop pd resps issues idx →
      ∃ r issue, a = mkGptAnalysis r issue pd := by
  intro issues
  induction issues with
  | nil => intro idx a ha; simp [parseLoop] at ha
  | cons issue rest ih =>
    intro idx a ha
    by_cases hlt : idx < resps.length
    · simp only [parseLoop, hlt, if_true, List.mem_cons] at ha
      rcases ha with rfl | ha
      · exact ⟨_, _, rfl⟩
      · exact ih (idx + 1) a ha
    · simp only [parseLoop, hlt, if_false] at ha
      exact ih (idx + 1) a ha

/-- Claim C10: every analysis record produced by the GPT-response parser
has a non-empty relevantClauses list and a non-empty recommendations list:
when no clause items are extracted, the fallback clause catalog (non-empty
in every branch) is substituted, and when no recommendations are
extracted the single default recommendation is substituted. -/
theorem claim10_gpt_nonempty_fields :
    ∀ (responseText : String) (pd : ProjectDetails) (a : Analysis),
      a ∈ parseGptReportResponse responseText pd →
      a.relevantClauses ≠ [] ∧ a.recommendations ≠ [] := by
  intro text pd a ha
  unfold parseGptReportResponse at ha
  rcases mem_parseLoop pd _ pd.issues 0 a ha with ⟨r, issue, rfl⟩
  exact mkGptAnalysis_nonempty_fields r issue pd

/-- Witness for claim C10 at a concrete parse. -/
theorem claim10_witness :
    (mkGptAnalysis ("x") ⟨"", ""⟩ ⟨"", "", "", "", [⟨"", ""⟩]⟩).relevantClauses ≠ []
      ∧ (mkGptAnalysis ("x") ⟨"", ""⟩ ⟨"", "", "", "", [⟨"", ""⟩]⟩).recommendations ≠ [] :=
  claim10_gpt_nonempty_fields ("x") ⟨"", "", "", "", [⟨"", ""⟩]⟩ _ (by decide)

/-- Claim C5: the save handler has upsert semantics with ownership checks.
Saving a report whose id already has a stored row owned by the caller
replaces the stored payload in place — the result is success, the table
size is unchanged, the number of rows carrying that id is unchanged (no
duplicate is created), every row carrying the id now holds the new
payload, and rows with other ids are untouched.  Saving onto another
user's id answers 403 and leaves the table unchanged.  Saving a fresh id
appends exactly one new row owned by the caller. -/
theorem claim5_save_upsert_ownership :
    (∀ (db : List ReportRow) (userId : String) (report : Report)
        (row : ReportRow) (rest : List ReportRow),
        report.id ≠ "" →
        db.filter (fun r => r.id == report.id) = row :: rest →
        row.userId = userId →
        (saveReportHandler db userId report).fst = SaveOutcome.ok report.id
          ∧ (saveReportHandler db userId report).snd.length = db.length
          ∧ ((saveReportHandler db userId report).snd.filter
                (fun r => r.id == report.id)).length
              = (db.filter (fun r => r.id == report.id)).length
          ∧ (∀ r ∈ (saveReportHandler db userId report).snd, r.id = report.id →
                r.projectDetails = report.projectDetails ∧ r.analysis = report.analysis
                  ∧ r.date = report.date)
          ∧ (∀ r ∈ db, r.id ≠ report.id → r ∈ (saveReportHandler db userId report).snd))
    ∧ (∀ (db : List ReportRow) (userId : String) (report : Report)
        (row : ReportRow) (rest : List ReportRow),
        report.id ≠ "" →
        db.filter (fun r => r.id == report.id) = row :: rest →
        row.userId ≠ userId →
        saveReportHandler db userId report = (SaveOutcome.forbidden, db))
    ∧ (∀ (db : List ReportRow) (userId : String) (report : Report),
        report.id ≠ "" →
        db.filter (fun r => r.id == report.id) = [] →
        saveReportHandler db userId report
          = (SaveOutcome.ok report.id,
             db ++ [⟨report.id, userId, report.date, report.projectDetails,
                     report.analysis⟩])) := by
  refine ⟨?_, ?_, ?_⟩
  · intro db uid rep row rest hne hfilter hown
    have hbne : (row.userId != uid) = false := by simp [hown]
    have hhandler : saveReportHandler db uid rep
        = (SaveOutcome.ok rep.id,
           db.map (fun r =>
             if r.id == rep.id then
               { r with date := rep.date, projectDetails := rep.projectDetails,
                        analysis := rep.analysis }
             else r)) := by
      unfold saveReportHandler
      rw [if_neg hne, hfilter]
      simp [hbne]
    rw [hhandler]
    have hupd_id : ∀ r : ReportRow,
        ((if r.id == rep.id then
            { r with date := rep.date, projectDetails := rep.projectDetails,
                     analysis := rep.analysis }
          else r).id == rep.id) = (r.id == rep.id) := by
      intro r
      by_cases hid : r.id == rep.id <;> simp [hid]
    refine ⟨rfl, by simp, ?_, ?_, ?_⟩
    · rw [List.filter_map, List.length_map]
      congr 1
      apply List.filter_congr
      intro r _
      simpa [Function.comp] using hupd_id r
    · intro r hr hrid
      rcases List.mem_map.mp hr with ⟨s, _, rfl⟩
      by_cases hid : s.id == rep.id
      · simp [hid]
      · exfalso
        simp only [hid, Bool.false_eq_true, if_false] at hrid
        simp [hrid] at hid
    · intro r hr hrid
      have : (if r.id == rep.id then
            { r with date := rep.date, projectDetails := rep.projectDetails,
                     analysis := rep.analysis }
          else r) = r := by
        have : (r.id == rep.id) = false := by simp [hrid]
        simp [this]
      rw [← this]
      exact List.mem_map_of_mem _ hr
  · intro db uid rep row rest hne hfilter hown
    have hbne : (row.userId != uid) = true := by simp [hown]
    unfold saveReportHandler
    rw [if_neg hne, hfilter]
    simp [hbne]
  · intro db uid rep hne hfilter
    unfold saveReportHandler
    rw [if_neg hne, hfilter]

/-- Witness for claim C5's three branches at concrete tables. -/
theorem claim5_witness :
    (saveReportHandler [(⟨"r1", "u1", "d1", ⟨"", "", "", "", []⟩, []⟩ : ReportRow)] ("u1")
        (⟨"r1", "d2", ⟨"p", "", "", "", []⟩, []⟩ : Report)).fst
        = SaveOutcome.ok ("r1")
      ∧ saveReportHandler [(⟨"r1", "u1", "d1", ⟨"", "", "", "", []⟩, []⟩ : ReportRow)] ("u2")
          (⟨"r1", "d2", ⟨"p", "", "", "", []⟩, []⟩ : Report)
        = (SaveOutcome.forbidden, [(⟨"r1", "u1", "d1", ⟨"", "", "", "", []⟩, []⟩ : ReportRow)])
      ∧ saveReportHandler [] ("u3") (⟨"r1", "d2", ⟨"p", "", "", "", []⟩, []⟩ : Report)
        = (SaveOutcome.ok ("r1"),
           [(⟨"r1", "u3", "d2", ⟨"p", "", "", "", []⟩, []⟩ : ReportRow)]) :=
  ⟨(claim5_save_upsert_ownership.1 _ _ _
     (⟨"r1", "u1", "d1", ⟨"", "", "", "", []⟩, []⟩ : ReportRow) [] (by decide) (by decide)
     (by decide)).1,
   claim5_save_upsert_ownership.2.1 _ _ _
     (⟨"r1", "u1", "d1", ⟨"", "", "", "", []⟩, []⟩ : ReportRow) [] (by decide) (by decide)
     (by decide),
   claim5_save_upsert_ownership.2.2 _ _ _ (by decide) (by decide)⟩

/-- Claim C1: both report-generation paths produce an analysis array of
length exactly the number of issues, index-aligned with the issues array —
the k-th analysis carries the k-th issue's description and actions taken.
On the template path the analysis array is the issues array mapped through
the renderer; on the GPT path the per-issue slices are at least as many as
the issues (the splitter returns at least issueCount slices and a single
issue consumes the whole response), so the guarded loop never skips an
issue. -/
theorem claim1_analysis_length_alignment :
    (∀ (id date : String) (pd : ProjectDetails),
        (generateReport id date pd).analysis.length = pd.issues.length
          ∧ (∀ k : Nat,
              ((generateReport id date pd).analysis[k]?).map (fun a => a.issue)
                  = (pd.issues[k]?).map (fun i => i.description)
                ∧ ((generateReport id date pd).analysis[k]?).map (fun a => a.actionsTaken)
                  = (pd.issues[k]?).map (fun i => i.actionsTaken)))
    ∧ (∀ (responseText : String) (pd : ProjectDetails),
        (parseGptReportResponse responseText pd).length = pd.issues.length
          ∧ (∀ k : Nat,
              ((parseGptReportResponse responseText pd)[k]?).map (fun a => a.issue)
                  = (pd.issues[k]?).map (fun i => i.description)
                ∧ ((parseGptReportResponse responseText pd)[k]?).map (fun a => a.actionsTaken)
                  = (pd.issues[k]?).map (fun i => i.actionsTaken))) := by
  constructor
  · intro id date pd
    refine ⟨by simp [generateReport], ?_⟩
    intro k
    constructor <;>
      · simp only [generateReport, List.getElem?_map, Option.map_map]
        cases pd.issues[k]? <;> simp [mkTemplateAnalysis]
  · intro text pd
    have hle : 0 + pd.issues.length ≤
        (if 1 < pd.issues.length then splitResponseByIssues text pd.issues.length
         else [text]).length := by
      simpa using issues_le_responses text pd
    constructor
    · unfold parseGptReportResponse
      exact parseLoop_length pd _ pd.issues 0 hle
    · intro k
      unfold parseGptReportResponse
      constructor <;>
        · rw [parseLoop_getq pd _ pd.issues 0 hle k, Option.map_map]
          cases pd.issues[k]? <;> simp [mkGptAnalysis]

theorem stringMk_cons_ne_empty (c : Char) (l : List Char) : String.mk (c :: l) ≠ "" := by
  intro h
  have hdata := congrArg String.data h
  have hmt : ("" : String).data = [] := rfl
  rw [hmt] at hdata
  exact List.noConfusion hdata

/-- Claim C3: extractSection returns the empty string (and cannot raise —
it is a total function) whenever the section name does not occur in the
text; it matches the label with or without a trailing colon (the concrete
example computes to the same section body both ways); and when the label
is present followed by content (a non-whitespace character after the
matched label prefix) the result is non-empty — in particular the
spec's example yields the section body between the label and the next
heading. -/
theorem claim3_extractSection_behavior :
    (∀ (text sectionName : String) (allowMultiParagraph : Bool),
        findSub sectionName.data text.data = none →
        extractSection text sectionName allowMultiParagraph = "")
    ∧ extractSection ("Recommendations:\nDo X.\nLegal Context:\nSome legal text.")
        ("Recommendations") false = "Do X."
    ∧ extractSection ("Recommendations\nDo X.\nLegal Context:\nSome legal text.")
        ("Recommendations") false = "Do X."
    ∧ (∀ (text sectionName : String) (allowMultiParagraph : Bool) (c : Char) (r : List Char),
        restAfterLabel sectionName.data text.data true = some (c :: r) →
        extractSection text sectionName allowMultiParagraph ≠ "") := by
  refine ⟨?_, by decide, by decide, ?_⟩
  · intro text name mp h
    simp [extractSection, extractSectionAlt, sectionGroup, restAfterLabel, h]
  · intro text name mp c r h
    have hws := restAfterLabel_head_not_ws name.data text.data true c r h
    have hgroup : sectionGroup name.data text.data true
        = some (c :: r.take (lazyStop r)) := by
      unfold sectionGroup
      rw [h]
      simp [lazyStop_cons_not_ws c r hws, List.take_succ_cons]
    unfold extractSection
    rw [hgroup]
    simp only [List.isEmpty_cons, Bool.false_eq_true, if_false]
    simp only [postProcessSection]
    rcases trimStr_cons_of_not_ws c (r.take (lazyStop r)) hws with ⟨t, htrim⟩
    rw [htrim]
    cases mp with
    | true =>
      rw [if_pos rfl]
      exact stringMk_cons_ne_empty c t
    | false =>
      rw [if_neg (by simp)]
      rw [firstFragEnd_cons_not_ws c t hws, List.take_succ_cons]
      rcases trimStr_cons_of_not_ws c (t.take (firstFragEnd t)) hws with ⟨t2, htrim2⟩
      rw [htrim2]
      exact stringMk_cons_ne_empty c t2

/-- Witness for claim C3's universally quantified parts at concrete
inputs. -/
theorem claim3_witness :
    extractSection ("no sections in this text") ("Recommendations") false = ""
      ∧ extractSection ("Recommendations:\nDo X.\nLegal Context:\nSome legal text.")
          ("Recommendations") true ≠ "" :=
  ⟨claim3_extractSection_behavior.1 ("no sections in this text") ("Recommendations") false
     (by decide),
   claim3_extractSection_behavior.2.2.2
     ("Recommendations:\nDo X.\nLegal Context:\nSome legal text.") ("Recommendations") true
     'D' (String.data ("o X.\nLegal Context:\nSome legal text.")) (by decide)⟩

/-- Claim C4: extractListItems returns the empty sequence when the named
section is absent from the text; on a bulleted section body the items come
back in document order with duplicates preserved verbatim — the synthetic
list renders to its items in order, and a duplicated item is kept. -/
theorem claim4_extractListItems_behavior :
    (∀ (text sectionName : String),
        findSub sectionName.data text.data = none →
        extractListItems text sectionName = [])
    ∧ extractListItems ("Recommendations:\n- A\n- B\n- C") ("Recommendations")
        = ["A", "B", "C"]
    ∧ extractListItems ("Recommendations:\n- A\n- B\n- A") ("Recommendations")
        = ["A", "B", "A"] := by
  refine ⟨?_, by decide, by decide⟩
  intro text name h
  simp [extractListItems, sectionGroup, restAfterLabel, h]

/-- Witness for claim C4's universally quantified part at a concrete
input. -/
theorem claim4_witness :
    extractListItems ("no list sections here") ("Recommendations") = [] :=
  claim4_extractListItems_behavior.1 ("no list sections here") ("Recommendations") (by decide)

end CCA
